import Mathlib

set_option maxRecDepth 40000

/-!
Verification of the sirat_mustaqeem_db converter pipeline.

Definitions are shallow embeddings of the Python sources:
  - `main.py` (class QuranDatabaseConverter): surah metadata, the juz
    boundary table, the juz/ruku/manzil classifiers, the SQL tuple
    storing loop of parse_arabic_sql, and the quran insert loop of
    create_sqlite_database.
  - `db_manager.py` (create_siratemustaqeem_db): the legacy juz loop and
    the manzilNo expression.
  - `Quran_with_tafseer/clean_and_merrage_with_quran.py`: clean_text and
    the tafsir transfer loop.
  - `ayahs_positions/mrg_with_base_db.py`: the ayahs and ayah_pages
    insert loops.
  - `database_manage.py`: the ayahs insert loop (with inserted/skipped
    counters) and the pages insert loop.
  - `extractor.py` and `main.py`: the doubled-quote escape resolution.

SQLite tables whose primary key makes INSERT OR REPLACE a keyed update
are modelled as functions `key → Option row` (the record set keyed by
the primary key); the one table written through a plain INSERT with an
AUTOINCREMENT key is modelled as a list of rows plus the autoincrement
counter, since row multiplicity is observable there.  Python comparison
operators on integers are modelled with Nat.beq / Nat.ble / Nat.blt.
-/

/-- Verse counts of the 114 chapters, from `surah_metadata` in
`main.py:229-345` (the `ayats` column). -/
def surahAyats : List Nat :=
  [7, 286, 200, 176, 120, 165, 206, 75, 129, 109,
   123, 111, 43, 52, 99, 128, 111, 110, 98, 135,
   112, 78, 118, 64, 77, 227, 93, 88, 69, 60,
   34, 30, 73, 54, 45, 83, 182, 88, 75, 85,
   54, 53, 89, 59, 37, 35, 38, 29, 18, 45,
   60, 49, 62, 55, 78, 96, 29, 22, 24, 13,
   14, 11, 11, 18, 12, 12, 30, 52, 52, 44,
   28, 28, 20, 56, 40, 31, 50, 40, 46, 42,
   29, 19, 36, 25, 22, 17, 19, 26, 30, 20,
   15, 21, 11, 8, 8, 19, 5, 8, 8, 11,
   11, 8, 3, 9, 5, 4, 7, 3, 6, 3,
   5, 4, 5, 6]

/-- Number of verses of chapter `c` (0 outside 1..114). -/
def ayats (c : Nat) : Nat := surahAyats.getD (c - 1) 0

/-- A `(chapter, verse)` pair is valid when the chapter is in 1..114 and
the verse is in 1..ayats(chapter). -/
def validPair (c v : Nat) : Bool :=
  Nat.ble 1 c && Nat.ble c 114 && Nat.ble 1 v && Nat.ble v (ayats c)

/-- The 30 juz boundary tuples `(s_start, v_start, s_end, v_end)` from
`QuranDatabaseConverter.get_juz_boundaries` (`main.py:392-427`). -/
def juz_boundaries : List (Nat × Nat × Nat × Nat) :=
  [(1, 1, 2, 141), (2, 142, 2, 252), (2, 253, 3, 92), (3, 93, 4, 23),
   (4, 24, 4, 147), (4, 148, 5, 81), (5, 82, 6, 110), (6, 111, 7, 87),
   (7, 88, 8, 40), (8, 41, 9, 92), (9, 93, 11, 5), (11, 6, 12, 52),
   (12, 53, 14, 52), (15, 1, 16, 128), (17, 1, 18, 74), (18, 75, 20, 135),
   (21, 1, 22, 78), (23, 1, 25, 20), (25, 21, 27, 55), (27, 56, 29, 45),
   (29, 46, 33, 30), (33, 31, 36, 27), (36, 28, 39, 31), (39, 32, 41, 46),
   (41, 47, 45, 37), (46, 1, 51, 30), (51, 31, 57, 29), (58, 1, 66, 12),
   (67, 1, 77, 50), (78, 1, 114, 6)]

/-- The scan loop of `QuranDatabaseConverter.get_juz_for_verse`
(`main.py:429-444`), with `i` the 1-based juz number of the head
boundary.  The branch structure mirrors the Python if/elif chain: when
the outer start-chapter condition holds but neither inner condition
does, the loop moves on to the next boundary. -/
def juzScan (surah ayah : Nat) : Nat → List (Nat × Nat × Nat × Nat) → Nat
  | _, [] => 1
  | i, (s1, v1, s2, v2) :: rest =>
    if Nat.beq surah s1 && Nat.ble v1 ayah then
      if Nat.beq surah s2 && Nat.ble ayah v2 then i
      else if Nat.blt surah s2 then i
      else juzScan surah ayah (i + 1) rest
    else if Nat.blt s1 surah && Nat.blt surah s2 then i
    else if Nat.beq surah s2 && Nat.ble ayah v2 then i
    else juzScan surah ayah (i + 1) rest

/-- `QuranDatabaseConverter.get_juz_for_verse` (`main.py:429-444`):
scan the 30 boundaries, defaulting to juz 1 when no boundary fires. -/
def get_juz_for_verse (surah ayah : Nat) : Nat :=
  juzScan surah ayah 1 juz_boundaries

/-- Order on `(chapter, verse)` coordinates in the global verse order. -/
def coordLe (a b c d : Nat) : Bool :=
  Nat.blt a c || (Nat.beq a c && Nat.ble b d)

/-- Specification-side containment: a boundary tuple, read as the
inclusive interval from its start coordinate to its end coordinate in
the global verse order, contains the point `(c, v)`. -/
def intervalContains (b : Nat × Nat × Nat × Nat) (c v : Nat) : Bool :=
  coordLe b.1 b.2.1 c v && coordLe c v b.2.2.1 b.2.2.2

/-- Specification-side part classifier: scan the boundary list in
ascending order and return the first part whose interval contains the
verse (`i` is the 1-based part number of the head boundary); default to
part 1 when none does. -/
def partScan (c v : Nat) : Nat → List (Nat × Nat × Nat × Nat) → Nat
  | _, [] => 1
  | i, b :: rest =>
    if intervalContains b c v then i else partScan c v (i + 1) rest

/-- First part whose interval contains `(c, v)`. -/
def partFirst (c v : Nat) : Nat := partScan c v 1 juz_boundaries

/-- The juz boundary tuples `(juz, s_start, v_start, s_end, v_end)` from
`db_manager.py:110-121` (the same 30 intervals, with the juz number
prepended). -/
def db_juz_boundaries : List (Nat × Nat × Nat × Nat × Nat) :=
  [(1, 1, 1, 2, 141), (2, 2, 142, 2, 252), (3, 2, 253, 3, 92),
   (4, 3, 93, 4, 23), (5, 4, 24, 4, 147), (6, 4, 148, 5, 81),
   (7, 5, 82, 6, 110), (8, 6, 111, 7, 87), (9, 7, 88, 8, 40),
   (10, 8, 41, 9, 92), (11, 9, 93, 11, 5), (12, 11, 6, 12, 52),
   (13, 12, 53, 14, 52), (14, 15, 1, 16, 128), (15, 17, 1, 18, 74),
   (16, 18, 75, 20, 135), (17, 21, 1, 22, 78), (18, 23, 1, 25, 20),
   (19, 25, 21, 27, 55), (20, 27, 56, 29, 45), (21, 29, 46, 33, 30),
   (22, 33, 31, 36, 27), (23, 36, 28, 39, 31), (24, 39, 32, 41, 46),
   (25, 41, 47, 45, 37), (26, 46, 1, 51, 30), (27, 51, 31, 57, 29),
   (28, 58, 1, 66, 12), (29, 67, 1, 77, 50), (30, 78, 1, 114, 6)]

/-- The legacy juz loop of `create_siratemustaqeem_db`
(`db_manager.py:142-152`): the first boundary whose start-chapter,
strictly-between, or end-chapter test fires wins, with the
start-chapter test not guarded by the end verse; `juz = 1` when nothing
fires. -/
def dbJuzScan (sura aya : Nat) : List (Nat × Nat × Nat × Nat × Nat) → Nat
  | [] => 1
  | (j, s1, v1, s2, v2) :: rest =>
    if Nat.beq sura s1 && Nat.ble v1 aya then j
    else if Nat.blt s1 sura && Nat.blt sura s2 then j
    else if Nat.beq sura s2 && Nat.ble aya v2 then j
    else dbJuzScan sura aya rest

/-- `db_manager.py` juz classification for one verse. -/
def dbJuz (sura aya : Nat) : Nat := dbJuzScan sura aya db_juz_boundaries

/-- The chapter-2 ruku end-verse cutoffs from
`QuranDatabaseConverter.calculate_ruku` (`main.py:462-463`). -/
def ruku_boundaries : List Nat :=
  [1, 26, 44, 60, 75, 92, 106, 124, 142, 158,
   177, 189, 204, 219, 235, 249, 260, 274, 286]

/-- The enumerate loop inside `calculate_ruku`: 0-based index `i`,
return `i + 1` at the first cutoff ≥ ayah, else 40 after the loop. -/
def rukuScan (ayah : Nat) : Nat → List Nat → Nat
  | _, [] => 40
  | i, b :: rest => if Nat.ble ayah b then i + 1 else rukuScan ayah (i + 1) rest

/-- `QuranDatabaseConverter.calculate_ruku` (`main.py:454-470`). -/
def calculate_ruku (surah ayah : Nat) : Nat :=
  if Nat.beq surah 1 then 1
  else if Nat.beq surah 2 then rukuScan ayah 0 ruku_boundaries
  else (ayah - 1) / 10 + 1

/-- Specification-side cutoff-table rule: 1-based index of the first
cutoff ≥ verse, capped at the table length. -/
def firstCutoffIdx (table : List Nat) (v : Nat) : Nat :=
  match table.findIdx? (fun b => Nat.ble v b) with
  | some i => i + 1
  | none => table.length

/-- Specification-side subsection rule: explicit cutoff tables for
chapters 1 and 2 (chapter 1 has the single end-verse cutoff 7, the end
of the chapter), generic `(v - 1) / 10 + 1` for every other chapter. -/
def rukuSpec (c v : Nat) : Nat :=
  if c = 1 then firstCutoffIdx [7] v
  else if c = 2 then firstCutoffIdx ruku_boundaries v
  else (v - 1) / 10 + 1

/-- `QuranDatabaseConverter.get_manzil` (`main.py:472-488`). -/
def get_manzil (para_id : Nat) : Nat :=
  if para_id ≤ 4 then 1
  else if para_id ≤ 8 then 2
  else if para_id ≤ 12 then 3
  else if para_id ≤ 16 then 4
  else if para_id ≤ 20 then 5
  else if para_id ≤ 24 then 6
  else 7

/-- Specification-side grouping rule: bucket boundaries at parts
4, 8, 12, 16, 20, 24, everything above 24 in bucket 7. -/
def manzilSpec (p : Nat) : Nat :=
  if p ≤ 24 then (p - 1) / 4 + 1 else 7

/-- The `manzilNo` expression `(juz - 1) // 4 + 1` from the quran insert
loop of `create_siratemustaqeem_db` (`db_manager.py:181`), whose inline
comment reads `manzilNo (1-7)`. -/
def dbManzil (juz : Nat) : Nat := (juz - 1) / 4 + 1

/-! ### Exhaustive per-verse checks over the canonical corpus

`chapterAll f c m` checks `f c v` for every verse `v` in 1..m, and
`corpusAll f n` checks every chapter in 1..n against its full verse
range; `corpusAll f 114` therefore covers exactly the valid
`(chapter, verse)` pairs. -/

def chapterAll (f : Nat → Nat → Bool) (c : Nat) : Nat → Bool
  | 0 => true
  | v + 1 => f c (v + 1) && chapterAll f c v

def corpusAll (f : Nat → Nat → Bool) : Nat → Bool
  | 0 => true
  | c + 1 => chapterAll f (c + 1) (ayats (c + 1)) && corpusAll f c

/-- Per-verse agreement of the code juz classifier with the
first-containing-interval rule. -/
def juzAgrees (c v : Nat) : Bool :=
  Nat.beq (get_juz_for_verse c v) (partFirst c v)

/-- Per-verse agreement of the code ruku classifier with the
cutoff-table rule. -/
def rukuAgrees (c v : Nat) : Bool :=
  Nat.beq (calculate_ruku c v) (rukuSpec c v)

/-! ### Generic keyed insert-or-replace merge

`INSERT OR REPLACE` into a table with primary key `K` is a keyed update
of the record set `K → Option V`.  A source loop is a fold over its
records; `eff` maps a record to the key/value it writes, or `none` when
the loop's guard skips the record. -/

/-- Write value `v` at key `k` (SQLite INSERT OR REPLACE by primary
key). -/
def upsert {K V : Type} [DecidableEq K] (s : K → Option V) (k : K) (v : V) :
    K → Option V :=
  fun q => if q = k then some v else s q

/-- One loop iteration: apply the record's effective write, if any. -/
def mergeStep {R K V : Type} [DecidableEq K] (eff : R → Option (K × V))
    (acc : K → Option V) (r : R) : K → Option V :=
  match eff r with
  | some (k, v) => upsert acc k v
  | none => acc

/-- Fold a list of source records into a keyed store, applying `eff` to
decide what (if anything) each record writes. -/
def runMerge {R K V : Type} [DecidableEq K] (eff : R → Option (K × V))
    (s : K → Option V) (rows : List R) : K → Option V :=
  rows.foldl (mergeStep eff) s

/-- The last value written at key `k` by a run over `rows`, if any. -/
def lastEff {R K V : Type} [DecidableEq K] (eff : R → Option (K × V))
    (rows : List R) (k : K) : Option V :=
  match rows with
  | [] => none
  | r :: rs =>
    match lastEff eff rs k with
    | some v => some v
    | none =>
      match eff r with
      | some (q, v) => if k = q then some v else none
      | none => none

/-! ### clean_text (`Quran_with_tafseer/clean_and_merrage_with_quran.py:16-23`)

The four `re.sub` passes and the final `strip()` are embedded as
character-list scanners.  Each scanner is given the list length as
fuel: every step of the Python regex scan either emits or replaces at
least one character, so length-many steps always finish the input; the
fuel-exhausted branch is never reached. -/

/-- ASCII whitespace, the `\s` class of the `re` module (and the
character set stripped by `str.strip`) restricted to ASCII. -/
def isPySpace (c : Char) : Bool :=
  c == ' ' || c == '\t' || c == '\n' || c == '\r' || c == '\x0b' || c == '\x0c'

/-- Python `str.strip()`: drop whitespace from both ends. -/
def pyStrip (l : List Char) : List Char :=
  ((l.dropWhile isPySpace).reverse.dropWhile isPySpace).reverse

/-- Tail of a `<br...>` match after the letters `br`: optional
whitespace, an optional slash, then `>`; returns the rest of the
input. -/
def brTail (l : List Char) : Option (List Char) :=
  match l.dropWhile isPySpace with
  | '/' :: '>' :: r => some r
  | '>' :: r => some r
  | _ => none

/-- Match the case-insensitive pattern `<br\s*/?>` at the head of the
input. -/
def matchBr : List Char → Option (List Char)
  | '<' :: b :: r :: rest =>
    if (b == 'b' || b == 'B') && (r == 'r' || r == 'R') then brTail rest
    else none
  | _ => none

/-- First pass: replace `<br\s*/?>` (ignoring case) by a newline. -/
def brSubF : Nat → List Char → List Char
  | 0, l => l
  | _, [] => []
  | fuel + 1, c :: rest =>
    match matchBr (c :: rest) with
    | some r => '\n' :: brSubF fuel r
    | none => c :: brSubF fuel rest

/-- Match the pattern `<[^>]+>` at the head of the input: a `<`, a
nonempty run of non-`>` characters, then the closing `>`. -/
def matchTag : List Char → Option (List Char)
  | '<' :: c2 :: rest =>
    if c2 == '>' then none
    else
      match (c2 :: rest).dropWhile (fun ch => !(ch == '>')) with
      | _ :: r => some r
      | [] => none
  | _ => none

/-- Second pass: strip every remaining `<...>` tag. -/
def tagSubF : Nat → List Char → List Char
  | 0, l => l
  | _, [] => []
  | fuel + 1, c :: rest =>
    match matchTag (c :: rest) with
    | some r => tagSubF fuel r
    | none => c :: tagSubF fuel rest

/-- Third pass: replace each greedy match of `\n\s*\n` by exactly two
newlines.  At a newline, the greedy match ends at the last newline of
the following whitespace run, if there is one. -/
def blankSubF : Nat → List Char → List Char
  | 0, l => l
  | _, [] => []
  | fuel + 1, c :: rest =>
    if c == '\n' then
      let ws := rest.takeWhile isPySpace
      match ws.reverse.findIdx? (fun ch => ch == '\n') with
      | some i => '\n' :: '\n' :: blankSubF fuel (rest.drop (ws.length - i))
      | none => c :: blankSubF fuel rest
    else c :: blankSubF fuel rest

/-- Fourth pass: collapse each run of spaces and tabs (`[ \t]+`) to a
single space. -/
def spaceSubF : Nat → List Char → List Char
  | 0, l => l
  | _, [] => []
  | fuel + 1, c :: rest =>
    if c == ' ' || c == '\t' then
      ' ' :: spaceSubF fuel (rest.dropWhile (fun ch => ch == ' ' || ch == '\t'))
    else c :: spaceSubF fuel rest

/-- `clean_text` from
`Quran_with_tafseer/clean_and_merrage_with_quran.py:16-23`: the empty
check, the four substitution passes in order, then `strip()`. -/
def clean_text (s : String) : String :=
  if s == "" then ""
  else
    let t1 := brSubF s.data.length s.data
    let t2 := tagSubF t1.length t1
    let t3 := blankSubF t2.length t2
    let t4 := spaceSubF t3.length t3
    String.mk (pyStrip t4)

/-! ### Tafsir transfer loop
(`Quran_with_tafseer/clean_and_merrage_with_quran.py:43-54`) -/

/-- A row of the `AQ` source table: `SURA_num`, `AYA_num`, `Tafsir`
(the tafsir column may be NULL). -/
structure TafsirRow where
  sura : Int
  aya : Int
  tafsir : Option String
deriving Repr, DecidableEq

/-- `raw_text = row[2] if row[2] else ""`: NULL (and the falsy empty
string) become the empty string. -/
def tafsirRaw (r : TafsirRow) : String :=
  match r.tafsir with
  | some t => t
  | none => ""

/-- What one source row writes into the `tafsir` table: the cleaned
text keyed by `(surah_id, ayah_number)`, or nothing when the cleaned
text is empty (`if cleaned:`). -/
def tafsirEff (r : TafsirRow) : Option ((Int × Int) × String) :=
  let cleaned := clean_text (tafsirRaw r)
  if cleaned == "" then none else some ((r.sura, r.aya), cleaned)

/-- The tafsir transfer loop: INSERT OR REPLACE of each cleaned,
nonempty entry by its `(surah_id, ayah_number)` primary key. -/
def mergeTafsir (s : Int × Int → Option String) (rows : List TafsirRow) :
    Int × Int → Option String :=
  runMerge tafsirEff s rows

/-! ### Ayah and page JSON entries -/

/-- A decoded ayahs JSON entry; each field is `none` when the key is
absent (`entry.get(...)`). -/
structure AyahEntry where
  aya_id : Option Int
  sura_id : Option Int
  type_val : Option Int
  text : Option String
  external_id : Option Int
deriving Repr, DecidableEq

/-- A decoded pages JSON entry; the glyph-segment payload is kept as
its serialized JSON string (the code only passes it through
`json.dumps`). -/
structure PageEntry where
  sura_id : Option Int
  aya_id : Option Int
  segs : Option String
deriving Repr, DecidableEq

/-- Python truthiness of an optional integer: absent and 0 are falsy. -/
def intTruthy : Option Int → Bool
  | none => false
  | some n => !(n == 0)

/-- Serialized segments of a page entry; `json.dumps` of the default
`[]` payload when the key is absent. -/
def emptySegs : String := "[]"

def segsOf (e : PageEntry) : String := e.segs.getD emptySegs

/-! ### ayahs insert loop (`ayahs_positions/mrg_with_base_db.py:46-61`) -/

/-- What one entry writes into `ayahs` under the guard
`if aya_id and sura_id and text:` (Python truthiness: absent, 0 and ""
all fail), keyed by the `aya_id` primary key. -/
def ayahEffMrg (e : AyahEntry) :
    Option (Int × (Int × Int × String × Option Int)) :=
  match e.aya_id, e.sura_id, e.text with
  | some ay, some su, some t =>
    if !(ay == 0) && !(su == 0) && !(t == "") then
      some (ay, (su, e.type_val.getD 0, t, e.external_id))
    else none
  | _, _, _ => none

/-- The `ayahs` INSERT OR REPLACE loop of `mrg_with_base_db.py`. -/
def mrgAyahs (s : Int → Option (Int × Int × String × Option Int))
    (es : List AyahEntry) : Int → Option (Int × Int × String × Option Int) :=
  runMerge ayahEffMrg s es

/-! ### ayah_pages insert loop (`ayahs_positions/mrg_with_base_db.py:63-77`)

This loop uses a plain `INSERT` into a table whose `page_id` key is
AUTOINCREMENT, so the table is modelled as the row list plus the next
autoincrement id. -/

/-- The `ayah_pages` table: rows `(page_id, sura_id, aya_id, segs)` and
the next AUTOINCREMENT id. -/
structure PagesTable where
  rows : List (Nat × Int × Int × String)
  nextId : Nat
deriving Repr, DecidableEq

/-- Guard of the ayah_pages loop: `if aya_id and sura_id:`. -/
def pageTruthy (e : PageEntry) : Bool :=
  intTruthy e.aya_id && intTruthy e.sura_id

/-- One iteration of the ayah_pages loop: plain INSERT of
`(sura_id, aya_id, segs)` with a fresh autoincrement `page_id`. -/
def mrgPagesStep (t : PagesTable) (e : PageEntry) : PagesTable :=
  match e.aya_id, e.sura_id with
  | some ay, some su =>
    if !(ay == 0) && !(su == 0) then
      { rows := t.rows ++ [(t.nextId, su, ay, segsOf e)], nextId := t.nextId + 1 }
    else t
  | _, _ => t

/-- The ayah_pages insert loop of `mrg_with_base_db.py`. -/
def mrgPages (t : PagesTable) (es : List PageEntry) : PagesTable :=
  es.foldl mrgPagesStep t

/-! ### ayahs insert loop with counters (`database_manage.py:125-144`) -/

/-- One iteration of the database_manage ayahs loop: skip (counting)
when `aya_id` or `sura_id` is absent, skip (counting) when `text` is
absent, otherwise INSERT OR REPLACE keyed by `aya_id`.  The state is
`(store, inserted, skipped)`. -/
def dmAyahStep
    (st : (Int → Option (Int × Int × String × Option Int)) × Nat × Nat)
    (e : AyahEntry) :
    (Int → Option (Int × Int × String × Option Int)) × Nat × Nat :=
  match e.aya_id, e.sura_id with
  | some ay, some su =>
    match e.text with
    | some t =>
      (upsert st.1 ay (su, e.type_val.getD 0, t, e.external_id),
        st.2.1 + 1, st.2.2)
    | none => (st.1, st.2.1, st.2.2 + 1)
  | _, _ => (st.1, st.2.1, st.2.2 + 1)

/-- The database_manage ayahs loop over a list of decoded entries. -/
def dmAyahs
    (st : (Int → Option (Int × Int × String × Option Int)) × Nat × Nat)
    (es : List AyahEntry) :
    (Int → Option (Int × Int × String × Option Int)) × Nat × Nat :=
  es.foldl dmAyahStep st

/-- The effective write of one entry in the database_manage ayahs loop
(`none` exactly when the loop counts it as skipped). -/
def dmAyahEff (e : AyahEntry) :
    Option (Int × (Int × Int × String × Option Int)) :=
  match e.aya_id, e.sura_id, e.text with
  | some ay, some su, some t => some (ay, (su, e.type_val.getD 0, t, e.external_id))
  | _, _, _ => none

/-! ### pages insert loop (`database_manage.py:146-158`) -/

/-- `enumerate(pages_data, start=i)`. -/
def enumFrom {α : Type} : Nat → List α → List (Nat × α)
  | _, [] => []
  | i, a :: as => (i, a) :: enumFrom (i + 1) as

def keyErrSura : String := "KeyError: sura_id"

def keyErrAya : String := "KeyError: aya_id"

/-- The database_manage pages loop over enumerated entries: it reads
`entry["sura_id"]` and `entry["aya_id"]` without a presence check, so a
missing key raises a KeyError that aborts the whole batch; otherwise it
INSERT OR REPLACEs `(sura_id, aya_id, segs)` keyed by `page_id = idx`. -/
def dmPagesLoop (s : Nat → Option (Int × Int × String)) :
    List (Nat × PageEntry) → Except String (Nat → Option (Int × Int × String))
  | [] => .ok s
  | (idx, e) :: rest =>
    match e.sura_id with
    | none => .error keyErrSura
    | some su =>
      match e.aya_id with
      | none => .error keyErrAya
      | some ay => dmPagesLoop (upsert s idx (su, ay, segsOf e)) rest

/-- The database_manage pages loop, enumerating from 1 as
`enumerate(pages_data, start=1)` does. -/
def dmPages (s : Nat → Option (Int × Int × String)) (es : List PageEntry) :
    Except String (Nat → Option (Int × Int × String)) :=
  dmPagesLoop s (enumFrom 1 es)

/-- The effective write of one enumerated entry when both keys are
present. -/
def dmPageEff (p : Nat × PageEntry) : Option (Nat × (Int × Int × String)) :=
  match p.2.sura_id, p.2.aya_id with
  | some su, some ay => some (p.1, (su, ay, segsOf p.2))
  | _, _ => none

/-! ### Escape resolution (`main.py:137`, `extractor.py:37`)

`text.replace("''", "'")`: Python `str.replace` scans left to right,
replacing non-overlapping occurrences. -/

/-- The single-quote character, U+0027. -/
def qc : Char := Char.ofNat 39

/-- `text.replace("''", "'")`: Python str.replace scans left to right,
replacing non-overlapping occurrences and resuming past each match;
specialized here to the two-character pattern the code passes. -/
def resolveEscapes : List Char → List Char
  | [] => []
  | [c] => [c]
  | c1 :: c2 :: rest =>
    if c1 = qc ∧ c2 = qc then qc :: resolveEscapes rest
    else c1 :: resolveEscapes (c2 :: rest)

/-- Join chunks with a separator (used to describe the shape
`x0''x1''...''xn` that the extraction pattern guarantees for a quoted
text field: quote-free chunks separated by doubled quotes). -/
def joinSep (sep : List Char) : List (List Char) → List Char
  | [] => []
  | [x] => x
  | x :: xs => x ++ sep ++ joinSep sep xs

/-! ### Tuple storing loop of parse_arabic_sql (`main.py:126-152`) -/

/-- Digits of a decimal literal; `none` on an empty or non-digit list. -/
def natFromDigits (l : List Char) : Option Nat :=
  match l with
  | [] => none
  | _ =>
    l.foldl (fun acc c =>
      match acc with
      | some n => if c.isDigit then some (n * 10 + (c.toNat - 48)) else none
      | none => none) (some 0)

/-- Python `int(str)` on ASCII input: surrounding whitespace stripped,
optional sign, at least one digit; `none` models the ValueError. -/
def pyInt (s : String) : Option Int :=
  match pyStrip s.data with
  | [] => none
  | c :: rest =>
    if c == '-' then (natFromDigits rest).map (fun n => -(n : Int))
    else if c == '+' then (natFromDigits rest).map (fun n => (n : Int))
    else (natFromDigits (c :: rest)).map (fun n => (n : Int))

/-- An entry of `self.arabic_verses` (`main.py:133-138`): the dict
`{id, surah, ayah, arabic}`. -/
structure Verse where
  id : Int
  surah : Int
  ayah : Int
  arabic : String
deriving Repr, DecidableEq

/-- The `try` body of the storing loop for one matched tuple
`(idx, sura, aya, text)`: parse the three integers and resolve escapes
and strip the text; `none` models the caught ValueError
(`except ValueError: continue`). -/
def parseVerse (m : String × String × String × String) : Option Verse :=
  match pyInt m.1, pyInt m.2.1, pyInt m.2.2.1 with
  | some i, some su, some ay =>
    some ⟨i, su, ay, String.mk (pyStrip (resolveEscapes m.2.2.2.data))⟩
  | _, _, _ => none

/-- The storing loop of `parse_arabic_sql` (`main.py:128-140`): keep
the tuples whose integer fields parse, in input order.  (The final
sort of line 143 is outside this loop.) -/
def processMatches : List (String × String × String × String) → List Verse
  | [] => []
  | m :: rest =>
    match parseVerse m with
    | some v => v :: processMatches rest
    | none => processMatches rest

/-! ### Quran insert loop of create_sqlite_database (`main.py:583-642`) -/

/-- Python dict lookup with default (`d.get(key, default)`); the source
keys its translation dicts by the string `f"{sura}:{aya}"`, which is
injective on integer pairs and modelled here by the pair itself. -/
def dictGet (d : List ((Int × Int) × String)) (k : Int × Int) (dflt : String) :
    String :=
  match d.find? (fun p => p.1 == k) with
  | some p => p.2
  | none => dflt

/-- The Urdu placeholder f-string of `main.py:598`. -/
def placeholderUrdu (surah ayah : Int) : String :=
  "سورہ " ++ toString surah ++ " کی آیت " ++ toString ayah ++
    " کا ترجمہ یہاں درج کیا جائے گا۔"

/-- `QuranDatabaseConverter.get_sajda_verses` (`main.py:446-452`). -/
def sajda_verses : List (Int × Int) :=
  [(7, 206), (13, 15), (16, 50), (17, 109), (19, 58),
   (22, 18), (22, 77), (25, 60), (27, 26), (32, 15),
   (38, 24), (41, 38), (53, 62), (84, 21), (96, 19)]

/-- A row of the `quran` table (`main.py:511-527`). -/
structure QuranRow where
  ayatId : Int
  ayatNumber : Int
  arabicText : String
  urduTranslation : String
  ayatSajda : Int
  surahRuku : Nat
  paraRuku : Nat
  paraId : Nat
  manzilNo : Nat
  ayatVisible : Int
  surahId : Int
  withoutAerab : String
  favourite : Int
deriving Repr, DecidableEq

/-- `ayat_id = verse['id'] if verse['id'] > 0 else (surah * 1000 + ayah)`
(`main.py:618`). -/
def derivedId (v : Verse) : Int :=
  if v.id > 0 then v.id else v.surah * 1000 + v.ayah

/-- The row built for one verse by the insert loop (`main.py:590-636`):
Urdu translation looked up with the chapter/verse placeholder as
default, plain text looked up with the verse's own Arabic text as
default.  The structural classifiers are defined on naturals; the dump
coordinates come from digit-only captures, hence `toNat`. -/
def mkRow (tr simple : List ((Int × Int) × String)) (v : Verse) : QuranRow :=
  { ayatId := derivedId v
    ayatNumber := v.ayah
    arabicText := v.arabic
    urduTranslation :=
      dictGet tr (v.surah, v.ayah) (placeholderUrdu v.surah v.ayah)
    ayatSajda := if (v.surah, v.ayah) ∈ sajda_verses then 1 else 0
    surahRuku := calculate_ruku v.surah.toNat v.ayah.toNat
    paraRuku := calculate_ruku v.surah.toNat v.ayah.toNat
    paraId := get_juz_for_verse v.surah.toNat v.ayah.toNat
    manzilNo := get_manzil (get_juz_for_verse v.surah.toNat v.ayah.toNat)
    ayatVisible := 1
    surahId := v.surah
    withoutAerab := dictGet simple (v.surah, v.ayah) v.arabic
    favourite := 0 }

/-- The sqlite3 IntegrityError raised by a plain INSERT whose primary
key already exists. -/
def pkErr : String := "IntegrityError: UNIQUE constraint failed: quran.ayatId"

/-- The insert loop: each verse row is INSERTed (plain INSERT: a
duplicate `ayatId` primary key raises and aborts); no check of any
kind is made on the `(chapter, verse)` pair. -/
def insertLoop (tr simple : List ((Int × Int) × String)) :
    List Verse → List QuranRow → Except String (List QuranRow)
  | [], acc => .ok acc
  | v :: vs, acc =>
    let row := mkRow tr simple v
    if acc.any (fun r => r.ayatId == row.ayatId) then .error pkErr
    else insertLoop tr simple vs (acc ++ [row])

/-- Run the quran insert loop on a parsed verse list. -/
def insertVerses (tr simple : List ((Int × Int) × String)) (vs : List Verse) :
    Except String (List QuranRow) :=
  insertLoop tr simple vs []

/-! ### Concrete inputs used by counterexamples and witnesses -/

/-- Empty translation table. -/
def noDict : List ((Int × Int) × String) := []

/-- A parsed verse with sequence id 1 at chapter 1, verse 1. -/
def verseA : Verse := { id := 1, surah := 1, ayah := 1, arabic := "A" }

/-- A second parsed verse with a different sequence id but the same
`(chapter, verse)` pair as `verseA`. -/
def verseB : Verse := { id := 2, surah := 1, ayah := 1, arabic := "B" }

/-- A parsed verse whose Arabic text is empty (the storing loop keeps
such tuples). -/
def verseEmpty : Verse := { id := 1, surah := 1, ayah := 1, arabic := "" }

/-- A matched tuple whose text field is empty. -/
def tupEmptyText : String × String × String × String := ("1", "1", "1", "")

/-- A page entry carrying both key components. -/
def pageOk : PageEntry := { sura_id := some 1, aya_id := some 1, segs := none }

/-- A page entry missing its `sura_id` key. -/
def pageNoSura : PageEntry := { sura_id := none, aya_id := some 5, segs := none }

/-- An ayah entry missing its `aya_id` key. -/
def ayahNoKey : AyahEntry :=
  { aya_id := none, sura_id := some 1, type_val := none, text := none,
    external_id := none }

/-- The empty ayah_pages table (AUTOINCREMENT starts at 1). -/
def emptyPagesTable : PagesTable := { rows := [], nextId := 1 }

/-- An empty keyed store. -/
def emptyTafsirStore : Int × Int → Option String := fun _ => none

/-- An empty pages store. -/
def emptyPagesStore : Nat → Option (Int × Int × String) := fun _ => none

/-- A tafsir source row whose text needs no cleaning. -/
def tafsirRowHi : TafsirRow := { sura := 1, aya := 2, tafsir := some "hi" }

/-- The chunks of the raw field `it''s`: `it` and `s` separated by a
doubled quote. -/
def itChunk : List Char := ['i', 't']

def sChunk : List Char := ['s']

/-! ### Exhaustive-check scaffolding lemmas -/

theorem chapterAll_true {f : Nat → Nat → Bool} {c : Nat} :
    ∀ {m : Nat}, chapterAll f c m = true → ∀ v, 1 ≤ v → v ≤ m → f c v = true := by
  intro m
  induction m with
  | zero => intro _ v h1 h2; omega
  | succ n ih =>
    intro h v h1 h2
    rw [chapterAll] at h
    rw [Bool.and_eq_true] at h
    by_cases hv : v = n + 1
    · subst hv; exact h.1
    · exact ih h.2 v h1 (by omega)

theorem corpusAll_true {f : Nat → Nat → Bool} :
    ∀ {n : Nat}, corpusAll f n = true →
      ∀ c, 1 ≤ c → c ≤ n → chapterAll f c (ayats c) = true := by
  intro n
  induction n with
  | zero => intro _ c h1 h2; omega
  | succ k ih =>
    intro h c h1 h2
    rw [corpusAll] at h
    rw [Bool.and_eq_true] at h
    by_cases hc : c = k + 1
    · subst hc; exact h.1
    · exact ih h.2 c h1 (by omega)

theorem validPair_bounds {c v : Nat} (h : validPair c v = true) :
    1 ≤ c ∧ c ≤ 114 ∧ 1 ≤ v ∧ v ≤ ayats c := by
  rw [validPair, Bool.and_eq_true, Bool.and_eq_true, Bool.and_eq_true] at h
  exact ⟨Nat.le_of_ble_eq_true h.1.1.1, Nat.le_of_ble_eq_true h.1.1.2,
    Nat.le_of_ble_eq_true h.1.2, Nat.le_of_ble_eq_true h.2⟩

theorem corpusAll_valid {f : Nat → Nat → Bool}
    (hall : corpusAll f 114 = true) {c v : Nat} (hv : validPair c v = true) :
    f c v = true := by
  obtain ⟨h1, h2, h3, h4⟩ := validPair_bounds hv
  exact chapterAll_true (corpusAll_true hall c h1 h2) v h3 h4

/-! ### Generic merge lemmas -/

theorem runMerge_cons {R K V : Type} [DecidableEq K] (eff : R → Option (K × V))
    (s : K → Option V) (r : R) (rs : List R) :
    runMerge eff s (r :: rs) = runMerge eff (mergeStep eff s r) rs := rfl

theorem runMerge_apply {R K V : Type} [DecidableEq K] (eff : R → Option (K × V)) :
    ∀ (rows : List R) (s : K → Option V) (k : K),
      runMerge eff s rows k =
        match lastEff eff rows k with
        | some v => some v
        | none => s k := by
  intro rows
  induction rows with
  | nil => intro s k; rfl
  | cons r rs ih =>
    intro s k
    rw [runMerge_cons, ih]
    cases hL : lastEff eff rs k with
    | some v => simp [lastEff, hL]
    | none =>
      cases hE : eff r with
      | none => simp [lastEff, hL, hE, mergeStep]
      | some kv =>
        obtain ⟨q, v⟩ := kv
        by_cases hq : k = q
        · subst hq; simp [lastEff, hL, hE, mergeStep, upsert]
        · simp [lastEff, hL, hE, mergeStep, upsert, hq]

theorem runMerge_idem {R K V : Type} [DecidableEq K] (eff : R → Option (K × V))
    (s : K → Option V) (rows : List R) :
    runMerge eff (runMerge eff s rows) rows = runMerge eff s rows := by
  funext k
  rw [runMerge_apply, runMerge_apply]
  cases h : lastEff eff rows k <;> simp [h]

theorem lastEff_some {R K V : Type} [DecidableEq K] (eff : R → Option (K × V)) :
    ∀ (rows : List R) (k : K) (t : V), lastEff eff rows k = some t →
      ∃ r, r ∈ rows ∧ eff r = some (k, t) := by
  intro rows
  induction rows with
  | nil => intro k t h; simp [lastEff] at h
  | cons r rs ih =>
    intro k t h
    rw [lastEff] at h
    cases hL : lastEff eff rs k with
    | some v =>
      rw [hL] at h
      obtain ⟨r2, hm, he⟩ := ih k v hL
      exact ⟨r2, List.mem_cons_of_mem _ hm, by rw [he, Option.some_inj.mp h]⟩
    | none =>
      rw [hL] at h
      cases hE : eff r with
      | none => rw [hE] at h; simp at h
      | some kv =>
        obtain ⟨q, v⟩ := kv
        rw [hE] at h
        by_cases hq : k = q
        · subst hq
          simp only [if_pos rfl] at h
          exact ⟨r, List.mem_cons_self .., by rw [hE, Option.some_inj.mp h]⟩
        · simp only [if_neg hq] at h
          cases h

theorem runMerge_some {R K V : Type} [DecidableEq K] (eff : R → Option (K × V))
    (rows : List R) (s : K → Option V) (k : K) (t : V)
    (h : runMerge eff s rows k = some t) :
    s k = some t ∨ ∃ r, r ∈ rows ∧ eff r = some (k, t) := by
  rw [runMerge_apply] at h
  cases hL : lastEff eff rows k with
  | some v =>
    rw [hL] at h
    exact Or.inr (lastEff_some eff rows k t (by rw [hL, Option.some_inj.mp h]))
  | none => rw [hL] at h; exact Or.inl h

theorem runMerge_filter {R K V : Type} [DecidableEq K] (eff : R → Option (K × V)) :
    ∀ (rows : List R) (s : K → Option V),
      runMerge eff s rows = runMerge eff s (rows.filter (fun r => (eff r).isSome)) := by
  intro rows
  induction rows with
  | nil => intro s; rfl
  | cons r rs ih =>
    intro s
    rw [runMerge_cons, List.filter_cons]
    cases hE : eff r with
    | none =>
      have hstep : mergeStep eff s r = s := by simp [mergeStep, hE]
      simp only [hE, Option.isSome_none, Bool.false_eq_true, if_false, hstep]
      exact ih s
    | some kv =>
      simp only [hE, Option.isSome_some, if_true]
      rw [runMerge_cons]
      have hstep : mergeStep eff s r = upsert s kv.1 kv.2 := by
        simp [mergeStep, hE]
      rw [hstep]
      exact ih _

/-! ### Lemmas about the specific merge loops -/

theorem mrgPagesStep_truthy (t : PagesTable) (e : PageEntry) :
    mrgPagesStep t e =
      if pageTruthy e then
        match e.aya_id, e.sura_id with
        | some ay, some su =>
          { rows := t.rows ++ [(t.nextId, su, ay, segsOf e)],
            nextId := t.nextId + 1 }
        | _, _ => t
      else t := by
  obtain ⟨su, ay, sg⟩ := e
  cases su <;> cases ay <;> simp [mrgPagesStep, pageTruthy, intTruthy]

theorem mrgPages_length :
    ∀ (es : List PageEntry) (t : PagesTable),
      (mrgPages t es).rows.length = t.rows.length + es.countP pageTruthy := by
  intro es
  induction es with
  | nil => intro t; simp [mrgPages, List.countP_nil]
  | cons e es ih =>
    intro t
    have hcons : mrgPages t (e :: es) = mrgPages (mrgPagesStep t e) es := rfl
    rw [hcons, ih, List.countP_cons, mrgPagesStep_truthy]
    by_cases hp : pageTruthy e
    · rw [if_pos hp]
      obtain ⟨su, ay, sg⟩ := e
      cases su <;> cases ay <;> simp_all [pageTruthy, intTruthy] <;> omega
    · rw [if_neg hp]
      simp [hp]

theorem mrgPages_filter :
    ∀ (es : List PageEntry) (t : PagesTable),
      mrgPages t es = mrgPages t (es.filter pageTruthy) := by
  intro es
  induction es with
  | nil => intro t; rfl
  | cons e es ih =>
    intro t
    have hcons : mrgPages t (e :: es) = mrgPages (mrgPagesStep t e) es := rfl
    rw [hcons, List.filter_cons]
    by_cases hp : pageTruthy e
    · rw [if_pos hp]
      have hcons2 : mrgPages t (e :: List.filter pageTruthy es) =
          mrgPages (mrgPagesStep t e) (List.filter pageTruthy es) := rfl
      rw [hcons2]
      exact ih _
    · rw [if_neg hp]
      have hskip : mrgPagesStep t e = t := by
        rw [mrgPagesStep_truthy, if_neg hp]
      rw [hskip]
      exact ih t

theorem dmAyahStep_eff (st : (Int → Option (Int × Int × String × Option Int)) × Nat × Nat)
    (e : AyahEntry) :
    dmAyahStep st e =
      match dmAyahEff e with
      | some (k, val) => (upsert st.1 k val, st.2.1 + 1, st.2.2)
      | none => (st.1, st.2.1, st.2.2 + 1) := by
  obtain ⟨ay, su, tv, tx, ex⟩ := e
  cases ay <;> cases su <;> cases tx <;> rfl

theorem dmAyahs_characterization :
    ∀ (es : List AyahEntry)
      (st : (Int → Option (Int × Int × String × Option Int)) × Nat × Nat),
      (dmAyahs st es).1 = runMerge dmAyahEff st.1 es ∧
      (dmAyahs st es).2.2 = st.2.2 + es.countP (fun e => (dmAyahEff e).isNone) := by
  intro es
  induction es with
  | nil => intro st; exact ⟨rfl, by simp [dmAyahs, List.countP_nil]⟩
  | cons e es ih =>
    intro st
    obtain ⟨hs, hk⟩ := ih (dmAyahStep st e)
    constructor
    · show (dmAyahs (dmAyahStep st e) es).1 =
        runMerge dmAyahEff (mergeStep dmAyahEff st.1 e) es
      rw [hs]
      have hfst : (dmAyahStep st e).1 = mergeStep dmAyahEff st.1 e := by
        rw [dmAyahStep_eff]
        cases hE : dmAyahEff e with
        | some kv => obtain ⟨k, val⟩ := kv; simp [mergeStep, hE]
        | none => simp [mergeStep, hE]
      rw [hfst]
    · show (dmAyahs (dmAyahStep st e) es).2.2 =
        st.2.2 + List.countP (fun x => (dmAyahEff x).isNone) (e :: es)
      rw [hk, List.countP_cons, dmAyahStep_eff]
      cases hE : dmAyahEff e with
      | some kv => obtain ⟨k, val⟩ := kv; simp [hE]
      | none => simp [hE]; omega

theorem dmPagesLoop_ok :
    ∀ (ps : List (Nat × PageEntry)) (s : Nat → Option (Int × Int × String)),
      (∀ p, p ∈ ps → p.2.sura_id.isSome ∧ p.2.aya_id.isSome) →
      dmPagesLoop s ps = .ok (runMerge dmPageEff s ps) := by
  intro ps
  induction ps with
  | nil => intro s _; rfl
  | cons p rest ih =>
    intro s h
    obtain ⟨idx, e⟩ := p
    obtain ⟨hsu, hay⟩ := h (idx, e) (List.mem_cons_self ..)
    obtain ⟨su, hsu2⟩ := Option.isSome_iff_exists.mp hsu
    obtain ⟨ay, hay2⟩ := Option.isSome_iff_exists.mp hay
    have hsu3 : e.sura_id = some su := hsu2
    have hay3 : e.aya_id = some ay := hay2
    have hrm : runMerge dmPageEff s ((idx, e) :: rest) =
        runMerge dmPageEff (mergeStep dmPageEff s (idx, e)) rest := rfl
    have hstep : mergeStep dmPageEff s (idx, e) =
        upsert s idx (su, ay, segsOf e) := by
      simp [mergeStep, dmPageEff, hsu3, hay3]
    have hloop : dmPagesLoop s ((idx, e) :: rest) =
        dmPagesLoop (upsert s idx (su, ay, segsOf e)) rest := by
      simp [dmPagesLoop, hsu3, hay3]
    rw [hloop, hrm, hstep]
    exact ih _ (fun q hq => h q (List.mem_cons_of_mem _ hq))

theorem enumFrom_mem {α : Type} :
    ∀ (es : List α) (i : Nat) (p : Nat × α), p ∈ enumFrom i es → p.2 ∈ es := by
  intro es
  induction es with
  | nil => intro i p h; simp [enumFrom] at h
  | cons a as ih =>
    intro i p h
    rw [enumFrom] at h
    rcases List.mem_cons.mp h with h1 | h2
    · subst h1; exact List.mem_cons_self ..
    · exact List.mem_cons_of_mem _ (ih (i + 1) p h2)

theorem dmPages_ok (s : Nat → Option (Int × Int × String)) (es : List PageEntry)
    (h : ∀ e, e ∈ es → e.sura_id.isSome ∧ e.aya_id.isSome) :
    dmPages s es = .ok (runMerge dmPageEff s (enumFrom 1 es)) :=
  dmPagesLoop_ok (enumFrom 1 es) s
    (fun p hp => h p.2 (enumFrom_mem es 1 p hp))

/-! ### Escape-resolution lemmas -/

theorem resolveEscapes_qfree :
    ∀ (x t : List Char), (∀ c, c ∈ x → c ≠ qc) →
      resolveEscapes (x ++ t) = x ++ resolveEscapes t := by
  intro x
  induction x with
  | nil => intro t _; rfl
  | cons c x ih =>
    intro t hq
    have hc : c ≠ qc := hq c (List.mem_cons_self ..)
    cases hxt : x ++ t with
    | nil =>
      rcases List.append_eq_nil.mp hxt with ⟨hx0, ht0⟩
      subst hx0
      subst ht0
      rfl
    | cons d rest2 =>
      rw [List.cons_append, hxt]
      show (if c = qc ∧ d = qc then qc :: resolveEscapes rest2
        else c :: resolveEscapes (d :: rest2)) = (c :: x) ++ resolveEscapes t
      rw [if_neg (fun hcon => hc hcon.1), ← hxt,
        ih t (fun e he => hq e (List.mem_cons_of_mem _ he))]
      simp

theorem resolveEscapes_pair (t : List Char) :
    resolveEscapes (qc :: qc :: t) = qc :: resolveEscapes t := by
  show (if qc = qc ∧ qc = qc then qc :: resolveEscapes t
    else qc :: resolveEscapes (qc :: t)) = qc :: resolveEscapes t
  rw [if_pos ⟨rfl, rfl⟩]

theorem resolveEscapes_joinSep :
    ∀ parts : List (List Char), (∀ p, p ∈ parts → qc ∉ p) →
      resolveEscapes (joinSep [qc, qc] parts) = joinSep [qc] parts := by
  intro parts
  induction parts with
  | nil => intro _; rfl
  | cons x xs ih =>
    intro h
    have hx : ∀ c, c ∈ x → c ≠ qc := by
      intro c hc hcq
      exact (h x (List.mem_cons_self ..)) (hcq ▸ hc)
    cases xs with
    | nil =>
      show resolveEscapes x = x
      have h2 := resolveEscapes_qfree x [] hx
      rw [List.append_nil] at h2
      rw [h2]
      show x ++ ([] : List Char) = x
      exact List.append_nil x
    | cons y ys =>
      show resolveEscapes (x ++ [qc, qc] ++ joinSep [qc, qc] (y :: ys)) =
        x ++ [qc] ++ joinSep [qc] (y :: ys)
      rw [List.append_assoc, resolveEscapes_qfree x _ hx]
      have hpair : [qc, qc] ++ joinSep [qc, qc] (y :: ys) =
          qc :: qc :: joinSep [qc, qc] (y :: ys) := rfl
      rw [hpair, resolveEscapes_pair,
        ih (fun p hp => h p (List.mem_cons_of_mem _ hp))]
      simp

/-! ### Placeholder string lemmas -/

theorem placeholder_data (s a : Int) :
    (placeholderUrdu s a).data =
      "سورہ ".data ++ ((toString s).data ++ (" کی آیت ".data ++
        ((toString a).data ++ " کا ترجمہ یہاں درج کیا جائے گا۔".data))) := by
  simp [placeholderUrdu, String.data_append, List.append_assoc]

theorem placeholder_ne (s a : Int) : placeholderUrdu s a ≠ "" := by
  intro h
  have hd : (placeholderUrdu s a).data = [] := by rw [h]
  rw [placeholder_data] at hd
  rcases List.append_eq_nil.mp hd with ⟨h1, _⟩
  exact absurd h1 (by decide)

theorem placeholder_mentions_surah (s a : Int) :
    ∃ x y, (placeholderUrdu s a).data = x ++ (toString s).data ++ y := by
  refine ⟨"سورہ ".data, " کی آیت ".data ++
    ((toString a).data ++ " کا ترجمہ یہاں درج کیا جائے گا۔".data), ?_⟩
  rw [placeholder_data]
  simp [List.append_assoc]

theorem placeholder_mentions_ayah (s a : Int) :
    ∃ x y, (placeholderUrdu s a).data = x ++ (toString a).data ++ y := by
  refine ⟨"سورہ ".data ++ ((toString s).data ++ " کی آیت ".data),
    " کا ترجمہ یہاں درج کیا جائے گا۔".data, ?_⟩
  rw [placeholder_data]
  simp [List.append_assoc]

/-! ## Claim theorems -/

/-- Claim C2, counterexample: the ayah_pages loop of
`mrg_with_base_db.py` uses a plain INSERT with an AUTOINCREMENT key, so
merging the same one-record source twice does not equal merging it
once — the second pass appends a duplicate row under a fresh page_id. -/
theorem ayah_pages_double_merge_duplicates :
    mrgPages (mrgPages emptyPagesTable [pageOk]) [pageOk] ≠
      mrgPages emptyPagesTable [pageOk] := by
  decide

/-- Claim C2 (amended): merging an auxiliary source twice with
identical content equals merging it once for the insert-or-replace
loops — the tafsir transfer loop, the ayahs loop of
`mrg_with_base_db.py`, the ayahs loop of `database_manage.py` (its
store component), and the enumerated pages loop of
`database_manage.py` — but the plain-INSERT ayah_pages loop of
`mrg_with_base_db.py` appends its rows again on the second pass: the
row count grows by twice the number of accepted entries. -/
theorem merge_idempotence_insert_or_replace :
    (∀ (s : Int × Int → Option String) (rows : List TafsirRow),
      mergeTafsir (mergeTafsir s rows) rows = mergeTafsir s rows) ∧
    (∀ (s : Int → Option (Int × Int × String × Option Int)) (es : List AyahEntry),
      mrgAyahs (mrgAyahs s es) es = mrgAyahs s es) ∧
    (∀ (st : (Int → Option (Int × Int × String × Option Int)) × Nat × Nat)
      (es : List AyahEntry),
      (dmAyahs ((dmAyahs st es).1, 0, 0) es).1 = (dmAyahs st es).1) ∧
    (∀ (s : Nat → Option (Int × Int × String)) (es : List PageEntry),
      (∀ e, e ∈ es → e.sura_id.isSome ∧ e.aya_id.isSome) →
      ∃ t, dmPages s es = .ok t ∧ dmPages t es = .ok t) ∧
    (∀ (t : PagesTable) (es : List PageEntry),
      (mrgPages (mrgPages t es) es).rows.length =
        t.rows.length + 2 * es.countP pageTruthy) := by
  refine ⟨?_, ?_, ?_, ?_, ?_⟩
  · intro s rows
    exact runMerge_idem tafsirEff s rows
  · intro s es
    exact runMerge_idem ayahEffMrg s es
  · intro st es
    calc (dmAyahs ((dmAyahs st es).1, 0, 0) es).1
        = runMerge dmAyahEff ((dmAyahs st es).1, (0 : Nat), (0 : Nat)).1 es :=
          (dmAyahs_characterization es _).1
      _ = runMerge dmAyahEff (runMerge dmAyahEff st.1 es) es := by
          rw [show ((dmAyahs st es).1, (0 : Nat), (0 : Nat)).1 =
            (dmAyahs st es).1 from rfl, (dmAyahs_characterization es st).1]
      _ = runMerge dmAyahEff st.1 es := runMerge_idem ..
      _ = (dmAyahs st es).1 := ((dmAyahs_characterization es st).1).symm
  · intro s es h
    refine ⟨runMerge dmPageEff s (enumFrom 1 es), dmPages_ok s es h, ?_⟩
    rw [dmPages_ok _ es h, runMerge_idem]
  · intro t es
    rw [mrgPages_length, mrgPages_length]
    omega

/-- Claim C2, witness: the database_manage pages loop is idempotent on
a concrete one-record source carrying both keys. -/
theorem merge_idempotence_insert_or_replace_witness :
    ∃ t, dmPages emptyPagesStore [pageOk] = .ok t ∧
      dmPages t [pageOk] = .ok t :=
  merge_idempotence_insert_or_replace.2.2.2.1 emptyPagesStore [pageOk]
    (by
      intro e he
      rw [List.mem_singleton] at he
      subst he
      exact ⟨rfl, rfl⟩)

/-- Claim C9, counterexample: the pages loop of `database_manage.py`
reads `entry["sura_id"]` without a presence check, so a record missing
that key raises a KeyError that aborts the batch instead of being
skipped. -/
theorem pages_missing_key_aborts :
    dmPages emptyPagesStore [pageNoSura] = .error keyErrSura := rfl

/-- Claim C9 (amended): in the ayahs loops of both files and the
ayah_pages loop of `mrg_with_base_db.py`, a record missing (or, in the
truthiness-guarded loops, zero-valued in) a required key component is
skipped without effect and without aborting; the skipped records of the
database_manage ayahs loop are counted.  The pages loop of
`database_manage.py` instead aborts with a KeyError on a record missing
`sura_id` or `aya_id`, and completes only when every record carries
both keys. -/
theorem aux_missing_key_policy :
    (∀ e : AyahEntry, e.aya_id = none ∨ e.sura_id = none → ayahEffMrg e = none) ∧
    (∀ (s : Int → Option (Int × Int × String × Option Int)) (es : List AyahEntry),
      mrgAyahs s es = mrgAyahs s (es.filter (fun e => (ayahEffMrg e).isSome))) ∧
    (∀ e : PageEntry, e.aya_id = none ∨ e.sura_id = none → pageTruthy e = false) ∧
    (∀ (t : PagesTable) (es : List PageEntry),
      mrgPages t es = mrgPages t (es.filter pageTruthy)) ∧
    (∀ e : AyahEntry, e.aya_id = none ∨ e.sura_id = none → dmAyahEff e = none) ∧
    (∀ (st : (Int → Option (Int × Int × String × Option Int)) × Nat × Nat)
      (es : List AyahEntry),
      (dmAyahs st es).1 = runMerge dmAyahEff st.1 es ∧
      (dmAyahs st es).2.2 = st.2.2 + es.countP (fun e => (dmAyahEff e).isNone)) ∧
    (∀ (s : Nat → Option (Int × Int × String)) (es : List PageEntry),
      (∀ e, e ∈ es → e.sura_id.isSome ∧ e.aya_id.isSome) →
      ∃ t, dmPages s es = .ok t) := by
  refine ⟨?_, ?_, ?_, ?_, ?_, ?_, ?_⟩
  · intro e h
    rcases h with h | h
    · simp [ayahEffMrg, h]
    · cases hay : e.aya_id <;> simp [ayahEffMrg, h, hay]
  · intro s es
    exact runMerge_filter ayahEffMrg es s
  · intro e h
    rcases h with h | h <;> simp [pageTruthy, intTruthy, h]
  · intro t es
    exact mrgPages_filter es t
  · intro e h
    rcases h with h | h
    · simp [dmAyahEff, h]
    · cases hay : e.aya_id <;> simp [dmAyahEff, h, hay]
  · intro st es
    exact dmAyahs_characterization es st
  · intro s es h
    exact ⟨runMerge dmPageEff s (enumFrom 1 es), dmPages_ok s es h⟩

/-- Claim C9, witness: a concrete ayah entry missing its aya_id key
writes nothing in the mrg_with_base_db ayahs loop. -/
theorem aux_missing_key_policy_witness :
    ayahEffMrg ayahNoKey = none :=
  aux_missing_key_policy.1 ayahNoKey (Or.inl rfl)

/-- Claim C3, counterexample: two VerseRecords with the same
`(chapter, verse)` pair but distinct sequence ids are both inserted
without any validation failure — they silently coexist as two rows of
the quran table. -/
theorem verse_duplicate_key_coexists :
    verseA.surah = verseB.surah ∧ verseA.ayah = verseB.ayah ∧
    verseA.id ≠ verseB.id ∧
    insertVerses noDict noDict [verseA, verseB] =
      .ok [mkRow noDict noDict verseA, mkRow noDict noDict verseB] :=
  ⟨rfl, rfl, by decide, rfl⟩

/-- Claim C3 (amended): the insert loop checks nothing about the
`(chapter, verse)` pair.  Two records sharing `(chapter, verse)` but
with distinct derived ayatIds are both inserted and silently coexist;
a hard failure (the IntegrityError of the plain INSERT) occurs exactly
when the derived ayatId primary key collides. -/
theorem insert_duplicate_key_behavior :
    (∀ (tr simple : List ((Int × Int) × String)) (v1 v2 : Verse),
      v1.surah = v2.surah → v1.ayah = v2.ayah →
      derivedId v1 ≠ derivedId v2 →
      insertVerses tr simple [v1, v2] =
        .ok [mkRow tr simple v1, mkRow tr simple v2]) ∧
    (∀ (tr simple : List ((Int × Int) × String)) (v1 v2 : Verse),
      derivedId v1 = derivedId v2 →
      insertVerses tr simple [v1, v2] = .error pkErr) := by
  constructor
  · intro tr simple v1 v2 _ _ hid
    have hb : ((mkRow tr simple v1).ayatId == (mkRow tr simple v2).ayatId) =
        (derivedId v1 == derivedId v2) := rfl
    have hfalse : (derivedId v1 == derivedId v2) = false :=
      beq_eq_false_iff_ne.mpr hid
    simp [insertVerses, insertLoop, hb, hfalse]
  · intro tr simple v1 v2 hid
    have hb : ((mkRow tr simple v1).ayatId == (mkRow tr simple v2).ayatId) =
        (derivedId v1 == derivedId v2) := rfl
    have htrue : (derivedId v1 == derivedId v2) = true := beq_iff_eq.mpr hid
    simp [insertVerses, insertLoop, hb, htrue]

/-- Claim C3, witness: the coexistence branch at the concrete
duplicate-key pair. -/
theorem insert_duplicate_key_behavior_witness :
    insertVerses noDict noDict [verseA, verseB] =
      .ok [mkRow noDict noDict verseA, mkRow noDict noDict verseB] :=
  insert_duplicate_key_behavior.1 noDict noDict verseA verseB rfl rfl (by decide)

/-- Claim C10, counterexample: a VerseRecord whose Arabic text is empty
(the storing loop keeps such records) and that has no plain-text
variant yields a row whose withoutAerab field is the empty string, so
not every row carries non-empty text content. -/
theorem verse_row_empty_without_aerab :
    (mkRow noDict noDict verseEmpty).withoutAerab = "" ∧
    insertVerses noDict noDict [verseEmpty] = .ok [mkRow noDict noDict verseEmpty] :=
  ⟨rfl, rfl⟩

/-- Claim C10 (amended): when the Urdu lookup misses, the row gets the
fixed non-empty placeholder, whose text mentions the chapter and the
verse number; when the plain-text lookup misses, the row gets the
record's own Arabic text.  The row fields are therefore non-empty
whenever every stored lookup value is non-empty and the record's own
Arabic text is non-empty — an empty parsed value or empty Arabic text
propagates into the row. -/
theorem verse_row_fallbacks :
    (∀ (tr simple : List ((Int × Int) × String)) (v : Verse),
      tr.find? (fun p => p.1 == (v.surah, v.ayah)) = none →
      (mkRow tr simple v).urduTranslation = placeholderUrdu v.surah v.ayah) ∧
    (∀ s a : Int, placeholderUrdu s a ≠ "") ∧
    (∀ s a : Int, ∃ x y, (placeholderUrdu s a).data = x ++ (toString s).data ++ y) ∧
    (∀ s a : Int, ∃ x y, (placeholderUrdu s a).data = x ++ (toString a).data ++ y) ∧
    (∀ (tr simple : List ((Int × Int) × String)) (v : Verse),
      simple.find? (fun p => p.1 == (v.surah, v.ayah)) = none →
      (mkRow tr simple v).withoutAerab = v.arabic) ∧
    (∀ (tr simple : List ((Int × Int) × String)) (v : Verse),
      (∀ p, p ∈ tr → p.2 ≠ "") →
      (mkRow tr simple v).urduTranslation ≠ "") ∧
    (∀ (tr simple : List ((Int × Int) × String)) (v : Verse),
      (∀ p, p ∈ simple → p.2 ≠ "") → v.arabic ≠ "" →
      (mkRow tr simple v).withoutAerab ≠ "") := by
  refine ⟨?_, placeholder_ne, placeholder_mentions_surah, placeholder_mentions_ayah,
    ?_, ?_, ?_⟩
  · intro tr simple v h
    show dictGet tr (v.surah, v.ayah) (placeholderUrdu v.surah v.ayah) = _
    rw [dictGet, h]
  · intro tr simple v h
    show dictGet simple (v.surah, v.ayah) v.arabic = v.arabic
    rw [dictGet, h]
  · intro tr simple v h
    show dictGet tr (v.surah, v.ayah) (placeholderUrdu v.surah v.ayah) ≠ ""
    rw [dictGet]
    cases hf : tr.find? (fun p => p.1 == (v.surah, v.ayah)) with
    | none => exact placeholder_ne v.surah v.ayah
    | some p => exact h p (List.mem_of_find?_eq_some hf)
  · intro tr simple v h harabic
    show dictGet simple (v.surah, v.ayah) v.arabic ≠ ""
    rw [dictGet]
    cases hf : simple.find? (fun p => p.1 == (v.surah, v.ayah)) with
    | none => exact harabic
    | some p => exact h p (List.mem_of_find?_eq_some hf)

/-- Claim C10, witness: the Urdu fallback fires on the concrete verse
with empty lookup tables. -/
theorem verse_row_fallbacks_witness :
    (mkRow noDict noDict verseA).urduTranslation =
      placeholderUrdu verseA.surah verseA.ayah :=
  verse_row_fallbacks.1 noDict noDict verseA rfl

/-- Claim C4, counterexample: a matched tuple whose text field is empty
after escape-resolution is not dropped — the storing loop keeps it as a
verse record with empty Arabic text. -/
theorem extractor_empty_text_kept :
    processMatches [tupEmptyText] = [verseEmpty] ∧
    (parseVerse tupEmptyText).isSome = true :=
  ⟨rfl, rfl⟩

/-- Claim C4 (amended): the storing loop of parse_arabic_sql keeps
exactly the matched tuples whose three integer fields parse — a tuple
is dropped if and only if one of sequence_id, chapter or verse fails
integer parsing (its text, empty or not, plays no role), the drop never
aborts the run, and the number of dropped tuples is the difference of
the reported found and processed counts. -/
theorem extractor_skip_policy :
    (∀ ms, processMatches ms = ms.filterMap parseVerse) ∧
    (∀ m : String × String × String × String,
      (parseVerse m).isSome =
        ((pyInt m.1).isSome && ((pyInt m.2.1).isSome && (pyInt m.2.2.1).isSome))) ∧
    (∀ ms, ms.length =
      (processMatches ms).length + ms.countP (fun m => (parseVerse m).isNone)) := by
  refine ⟨?_, ?_, ?_⟩
  · intro ms
    induction ms with
    | nil => rfl
    | cons m rest ih =>
      cases h : parseVerse m <;> simp [processMatches, h, List.filterMap_cons, ih]
  · intro m
    obtain ⟨a, b, c, d⟩ := m
    cases h1 : pyInt a <;> cases h2 : pyInt b <;> cases h3 : pyInt c <;>
      simp [parseVerse, h1, h2, h3]
  · intro ms
    induction ms with
    | nil => simp [processMatches, List.countP_nil]
    | cons m rest ih =>
      cases h : parseVerse m <;>
        simp [processMatches, h, List.countP_cons] <;> omega

/-- Claim C6: every commentary text stored by the tafsir transfer loop
is the clean_text normalization of some source row's raw text and is
never empty (a row whose text normalizes to whitespace-only, hence to
the empty string after the final strip, is not stored at all); the
concrete equalities exercise each normalization facet: line-break
markup to a newline, other tags stripped, blank-line runs collapsed,
horizontal-whitespace runs collapsed to one space, and ends trimmed. -/
theorem tafsir_text_normalization :
    (∀ (s : Int × Int → Option String) (rows : List TafsirRow)
      (k : Int × Int) (t : String),
      mergeTafsir s rows k = some t →
      s k = some t ∨ ∃ r, r ∈ rows ∧ (r.sura, r.aya) = k ∧
        t = clean_text (tafsirRaw r) ∧ t ≠ "") ∧
    (∀ (s : Int × Int → Option String) (rows : List TafsirRow),
      (∀ r, r ∈ rows → clean_text (tafsirRaw r) = "") →
      mergeTafsir s rows = s) ∧
    clean_text "a<br/>b" = "a\nb" ∧
    clean_text "a<BR >b" = "a\nb" ∧
    clean_text "<div>hi</div>" = "hi" ∧
    clean_text "a\n \n \nb" = "a\n\nb" ∧
    clean_text "a  \t b" = "a b" ∧
    clean_text "  hi  " = "hi" ∧
    clean_text " \n\t " = "" := by
  refine ⟨?_, ?_, rfl, rfl, rfl, rfl, rfl, rfl, rfl⟩
  · intro s rows k t h
    rcases runMerge_some tafsirEff rows s k t h with h1 | ⟨r, hm, he⟩
    · exact Or.inl h1
    · refine Or.inr ⟨r, hm, ?_⟩
      by_cases hc : clean_text (tafsirRaw r) == ""
      · simp [tafsirEff, hc] at he
      · simp only [tafsirEff] at he
        rw [if_neg hc] at he
        have he2 := Option.some_inj.mp he
        have hk : (r.sura, r.aya) = k := congrArg Prod.fst he2
        have ht : clean_text (tafsirRaw r) = t := congrArg Prod.snd he2
        rw [beq_iff_eq] at hc
        exact ⟨hk, ht.symm, fun hcon => hc (ht.trans hcon)⟩
  · intro s rows hall
    show runMerge tafsirEff s rows = s
    rw [runMerge_filter]
    have hnil : rows.filter (fun r => (tafsirEff r).isSome) = [] := by
      rw [List.filter_eq_nil_iff]
      intro r hr
      simp [tafsirEff, hall r hr]
    rw [hnil]
    rfl

/-- Claim C6, witness: a concrete one-row merge stores the cleaned
nonempty text at its key. -/
theorem tafsir_text_normalization_witness :
    emptyTafsirStore (1, 2) = some "hi" ∨
    ∃ r, r ∈ [tafsirRowHi] ∧ (r.sura, r.aya) = ((1 : Int), (2 : Int)) ∧
      "hi" = clean_text (tafsirRaw r) ∧ ("hi" : String) ≠ "" :=
  tafsir_text_normalization.1 emptyTafsirStore [tafsirRowHi] (1, 2) "hi" rfl

/-- Claim C7: each internal doubled quote of a quoted text field is
resolved to exactly one literal quote.  The extraction pattern
guarantees the field is quote-free chunks separated by doubled quotes;
resolving turns the doubled-quote separators into single quotes and
changes nothing else.  In particular the raw field with chunks `it` and
`s` (the raw text of `it''s`) resolves to `it`, one quote, `s`. -/
theorem escape_resolution_roundtrip :
    resolveEscapes (joinSep [qc, qc] [itChunk, sChunk]) =
      joinSep [qc] [itChunk, sChunk] ∧
    (∀ parts : List (List Char), (∀ p, p ∈ parts → qc ∉ p) →
      resolveEscapes (joinSep [qc, qc] parts) = joinSep [qc] parts) :=
  ⟨resolveEscapes_joinSep [itChunk, sChunk] (by decide), resolveEscapes_joinSep⟩

/-- Claim C7, witness: the universal statement applied to the concrete
chunk list of the field `it''s`, all hypotheses discharged by
computation. -/
theorem escape_resolution_roundtrip_witness :
    resolveEscapes (joinSep [qc, qc] [['a'], ['b', 'c']]) =
      joinSep [qc] [['a'], ['b', 'c']] :=
  escape_resolution_roundtrip.2 [['a'], ['b', 'c']] (by decide)

/-- Claim C8: the main converter's get_manzil matches the seven-bucket
rule over parts 1..30, always within 1..7, with the claimed values at
parts 4, 5 and 30; the `(juz - 1) // 4 + 1` manzilNo expression of
db_manager.py, whose own inline comment says `(1-7)`, instead computes
8 at parts 29 and 30. -/
theorem manzil_grouping_buckets :
    (∀ p, 1 ≤ p → p ≤ 30 →
      get_manzil p = manzilSpec p ∧ 1 ≤ get_manzil p ∧ get_manzil p ≤ 7) ∧
    get_manzil 4 = 1 ∧ get_manzil 5 = 2 ∧ get_manzil 30 = 7 ∧
    dbManzil 29 = 8 ∧ dbManzil 30 = 8 := by
  refine ⟨?_, rfl, rfl, rfl, rfl, rfl⟩
  intro p h1 h2
  have hall : ∀ q, q < 31 →
      get_manzil q = manzilSpec q ∧ 1 ≤ get_manzil q ∧ get_manzil q ≤ 7 := by
    decide
  exact hall p (by omega)

/-- Claim C8, witness: the bucket rule at part 17. -/
theorem manzil_grouping_buckets_witness :
    get_manzil 17 = manzilSpec 17 ∧ 1 ≤ get_manzil 17 ∧ get_manzil 17 ≤ 7 :=
  manzil_grouping_buckets.1 17 (by decide) (by decide)

/-! ### Exhaustive per-chapter checks

Each lemma kernel-evaluates one chapter's full verse range, so that no
single reduction grows large; together they cover all 6236 valid
`(chapter, verse)` pairs. -/
theorem juzChap1 : chapterAll juzAgrees 1 7 = true := by rfl
theorem juzChap2 : chapterAll juzAgrees 2 286 = true := by rfl
theorem juzChap3 : chapterAll juzAgrees 3 200 = true := by rfl
theorem juzChap4 : chapterAll juzAgrees 4 176 = true := by rfl
theorem juzChap5 : chapterAll juzAgrees 5 120 = true := by rfl
theorem juzChap6 : chapterAll juzAgrees 6 165 = true := by rfl
theorem juzChap7 : chapterAll juzAgrees 7 206 = true := by rfl
theorem juzChap8 : chapterAll juzAgrees 8 75 = true := by rfl
theorem juzChap9 : chapterAll juzAgrees 9 129 = true := by rfl
theorem juzChap10 : chapterAll juzAgrees 10 109 = true := by rfl
theorem juzChap11 : chapterAll juzAgrees 11 123 = true := by rfl
theorem juzChap12 : chapterAll juzAgrees 12 111 = true := by rfl
theorem juzChap13 : chapterAll juzAgrees 13 43 = true := by rfl
theorem juzChap14 : chapterAll juzAgrees 14 52 = true := by rfl
theorem juzChap15 : chapterAll juzAgrees 15 99 = true := by rfl
theorem juzChap16 : chapterAll juzAgrees 16 128 = true := by rfl
theorem juzChap17 : chapterAll juzAgrees 17 111 = true := by rfl
theorem juzChap18 : chapterAll juzAgrees 18 110 = true := by rfl
theorem juzChap19 : chapterAll juzAgrees 19 98 = true := by rfl
theorem juzChap20 : chapterAll juzAgrees 20 135 = true := by rfl
theorem juzChap21 : chapterAll juzAgrees 21 112 = true := by rfl
theorem juzChap22 : chapterAll juzAgrees 22 78 = true := by rfl
theorem juzChap23 : chapterAll juzAgrees 23 118 = true := by rfl
theorem juzChap24 : chapterAll juzAgrees 24 64 = true := by rfl
theorem juzChap25 : chapterAll juzAgrees 25 77 = true := by rfl
theorem juzChap26 : chapterAll juzAgrees 26 227 = true := by rfl
theorem juzChap27 : chapterAll juzAgrees 27 93 = true := by rfl
theorem juzChap28 : chapterAll juzAgrees 28 88 = true := by rfl
theorem juzChap29 : chapterAll juzAgrees 29 69 = true := by rfl
theorem juzChap30 : chapterAll juzAgrees 30 60 = true := by rfl
theorem juzChap31 : chapterAll juzAgrees 31 34 = true := by rfl
theorem juzChap32 : chapterAll juzAgrees 32 30 = true := by rfl
theorem juzChap33 : chapterAll juzAgrees 33 73 = true := by rfl
theorem juzChap34 : chapterAll juzAgrees 34 54 = true := by rfl
theorem juzChap35 : chapterAll juzAgrees 35 45 = true := by rfl
theorem juzChap36 : chapterAll juzAgrees 36 83 = true := by rfl
theorem juzChap37 : chapterAll juzAgrees 37 182 = true := by rfl
theorem juzChap38 : chapterAll juzAgrees 38 88 = true := by rfl
theorem juzChap39 : chapterAll juzAgrees 39 75 = true := by rfl
theorem juzChap40 : chapterAll juzAgrees 40 85 = true := by rfl
theorem juzChap41 : chapterAll juzAgrees 41 54 = true := by rfl
theorem juzChap42 : chapterAll juzAgrees 42 53 = true := by rfl
theorem juzChap43 : chapterAll juzAgrees 43 89 = true := by rfl
theorem juzChap44 : chapterAll juzAgrees 44 59 = true := by rfl
theorem juzChap45 : chapterAll juzAgrees 45 37 = true := by rfl
theorem juzChap46 : chapterAll juzAgrees 46 35 = true := by rfl
theorem juzChap47 : chapterAll juzAgrees 47 38 = true := by rfl
theorem juzChap48 : chapterAll juzAgrees 48 29 = true := by rfl
theorem juzChap49 : chapterAll juzAgrees 49 18 = true := by rfl
theorem juzChap50 : chapterAll juzAgrees 50 45 = true := by rfl
theorem juzChap51 : chapterAll juzAgrees 51 60 = true := by rfl
theorem juzChap52 : chapterAll juzAgrees 52 49 = true := by rfl
theorem juzChap53 : chapterAll juzAgrees 53 62 = true := by rfl
theorem juzChap54 : chapterAll juzAgrees 54 55 = true := by rfl
theorem juzChap55 : chapterAll juzAgrees 55 78 = true := by rfl
theorem juzChap56 : chapterAll juzAgrees 56 96 = true := by rfl
theorem juzChap57 : chapterAll juzAgrees 57 29 = true := by rfl
theorem juzChap58 : chapterAll juzAgrees 58 22 = true := by rfl
theorem juzChap59 : chapterAll juzAgrees 59 24 = true := by rfl
theorem juzChap60 : chapterAll juzAgrees 60 13 = true := by rfl
theorem juzChap61 : chapterAll juzAgrees 61 14 = true := by rfl
theorem juzChap62 : chapterAll juzAgrees 62 11 = true := by rfl
theorem juzChap63 : chapterAll juzAgrees 63 11 = true := by rfl
theorem juzChap64 : chapterAll juzAgrees 64 18 = true := by rfl
theorem juzChap65 : chapterAll juzAgrees 65 12 = true := by rfl
theorem juzChap66 : chapterAll juzAgrees 66 12 = true := by rfl
theorem juzChap67 : chapterAll juzAgrees 67 30 = true := by rfl
theorem juzChap68 : chapterAll juzAgrees 68 52 = true := by rfl
theorem juzChap69 : chapterAll juzAgrees 69 52 = true := by rfl
theorem juzChap70 : chapterAll juzAgrees 70 44 = true := by rfl
theorem juzChap71 : chapterAll juzAgrees 71 28 = true := by rfl
theorem juzChap72 : chapterAll juzAgrees 72 28 = true := by rfl
theorem juzChap73 : chapterAll juzAgrees 73 20 = true := by rfl
theorem juzChap74 : chapterAll juzAgrees 74 56 = true := by rfl
theorem juzChap75 : chapterAll juzAgrees 75 40 = true := by rfl
theorem juzChap76 : chapterAll juzAgrees 76 31 = true := by rfl
theorem juzChap77 : chapterAll juzAgrees 77 50 = true := by rfl
theorem juzChap78 : chapterAll juzAgrees 78 40 = true := by rfl
theorem juzChap79 : chapterAll juzAgrees 79 46 = true := by rfl
theorem juzChap80 : chapterAll juzAgrees 80 42 = true := by rfl
theorem juzChap81 : chapterAll juzAgrees 81 29 = true := by rfl
theorem juzChap82 : chapterAll juzAgrees 82 19 = true := by rfl
theorem juzChap83 : chapterAll juzAgrees 83 36 = true := by rfl
theorem juzChap84 : chapterAll juzAgrees 84 25 = true := by rfl
theorem juzChap85 : chapterAll juzAgrees 85 22 = true := by rfl
theorem juzChap86 : chapterAll juzAgrees 86 17 = true := by rfl
theorem juzChap87 : chapterAll juzAgrees 87 19 = true := by rfl
theorem juzChap88 : chapterAll juzAgrees 88 26 = true := by rfl
theorem juzChap89 : chapterAll juzAgrees 89 30 = true := by rfl
theorem juzChap90 : chapterAll juzAgrees 90 20 = true := by rfl
theorem juzChap91 : chapterAll juzAgrees 91 15 = true := by rfl
theorem juzChap92 : chapterAll juzAgrees 92 21 = true := by rfl
theorem juzChap93 : chapterAll juzAgrees 93 11 = true := by rfl
theorem juzChap94 : chapterAll juzAgrees 94 8 = true := by rfl
theorem juzChap95 : chapterAll juzAgrees 95 8 = true := by rfl
theorem juzChap96 : chapterAll juzAgrees 96 19 = true := by rfl
theorem juzChap97 : chapterAll juzAgrees 97 5 = true := by rfl
theorem juzChap98 : chapterAll juzAgrees 98 8 = true := by rfl
theorem juzChap99 : chapterAll juzAgrees 99 8 = true := by rfl
theorem juzChap100 : chapterAll juzAgrees 100 11 = true := by rfl
theorem juzChap101 : chapterAll juzAgrees 101 11 = true := by rfl
theorem juzChap102 : chapterAll juzAgrees 102 8 = true := by rfl
theorem juzChap103 : chapterAll juzAgrees 103 3 = true := by rfl
theorem juzChap104 : chapterAll juzAgrees 104 9 = true := by rfl
theorem juzChap105 : chapterAll juzAgrees 105 5 = true := by rfl
theorem juzChap106 : chapterAll juzAgrees 106 4 = true := by rfl
theorem juzChap107 : chapterAll juzAgrees 107 7 = true := by rfl
theorem juzChap108 : chapterAll juzAgrees 108 3 = true := by rfl
theorem juzChap109 : chapterAll juzAgrees 109 6 = true := by rfl
theorem juzChap110 : chapterAll juzAgrees 110 3 = true := by rfl
theorem juzChap111 : chapterAll juzAgrees 111 5 = true := by rfl
theorem juzChap112 : chapterAll juzAgrees 112 4 = true := by rfl
theorem juzChap113 : chapterAll juzAgrees 113 5 = true := by rfl
theorem juzChap114 : chapterAll juzAgrees 114 6 = true := by rfl

theorem rukuChap1 : chapterAll rukuAgrees 1 7 = true := by rfl
theorem rukuChap2 : chapterAll rukuAgrees 2 286 = true := by rfl
theorem rukuChap3 : chapterAll rukuAgrees 3 200 = true := by rfl
theorem rukuChap4 : chapterAll rukuAgrees 4 176 = true := by rfl
theorem rukuChap5 : chapterAll rukuAgrees 5 120 = true := by rfl
theorem rukuChap6 : chapterAll rukuAgrees 6 165 = true := by rfl
theorem rukuChap7 : chapterAll rukuAgrees 7 206 = true := by rfl
theorem rukuChap8 : chapterAll rukuAgrees 8 75 = true := by rfl
theorem rukuChap9 : chapterAll rukuAgrees 9 129 = true := by rfl
theorem rukuChap10 : chapterAll rukuAgrees 10 109 = true := by rfl
theorem rukuChap11 : chapterAll rukuAgrees 11 123 = true := by rfl
theorem rukuChap12 : chapterAll rukuAgrees 12 111 = true := by rfl
theorem rukuChap13 : chapterAll rukuAgrees 13 43 = true := by rfl
theorem rukuChap14 : chapterAll rukuAgrees 14 52 = true := by rfl
theorem rukuChap15 : chapterAll rukuAgrees 15 99 = true := by rfl
theorem rukuChap16 : chapterAll rukuAgrees 16 128 = true := by rfl
theorem rukuChap17 : chapterAll rukuAgrees 17 111 = true := by rfl
theorem rukuChap18 : chapterAll rukuAgrees 18 110 = true := by rfl
theorem rukuChap19 : chapterAll rukuAgrees 19 98 = true := by rfl
theorem rukuChap20 : chapterAll rukuAgrees 20 135 = true := by rfl
theorem rukuChap21 : chapterAll rukuAgrees 21 112 = true := by rfl
theorem rukuChap22 : chapterAll rukuAgrees 22 78 = true := by rfl
theorem rukuChap23 : chapterAll rukuAgrees 23 118 = true := by rfl
theorem rukuChap24 : chapterAll rukuAgrees 24 64 = true := by rfl
theorem rukuChap25 : chapterAll rukuAgrees 25 77 = true := by rfl
theorem rukuChap26 : chapterAll rukuAgrees 26 227 = true := by rfl
theorem rukuChap27 : chapterAll rukuAgrees 27 93 = true := by rfl
theorem rukuChap28 : chapterAll rukuAgrees 28 88 = true := by rfl
theorem rukuChap29 : chapterAll rukuAgrees 29 69 = true := by rfl
theorem rukuChap30 : chapterAll rukuAgrees 30 60 = true := by rfl
theorem rukuChap31 : chapterAll rukuAgrees 31 34 = true := by rfl
theorem rukuChap32 : chapterAll rukuAgrees 32 30 = true := by rfl
theorem rukuChap33 : chapterAll rukuAgrees 33 73 = true := by rfl
theorem rukuChap34 : chapterAll rukuAgrees 34 54 = true := by rfl
theorem rukuChap35 : chapterAll rukuAgrees 35 45 = true := by rfl
theorem rukuChap36 : chapterAll rukuAgrees 36 83 = true := by rfl
theorem rukuChap37 : chapterAll rukuAgrees 37 182 = true := by rfl
theorem rukuChap38 : chapterAll rukuAgrees 38 88 = true := by rfl
theorem rukuChap39 : chapterAll rukuAgrees 39 75 = true := by rfl
theorem rukuChap40 : chapterAll rukuAgrees 40 85 = true := by rfl
theorem rukuChap41 : chapterAll rukuAgrees 41 54 = true := by rfl
theorem rukuChap42 : chapterAll rukuAgrees 42 53 = true := by rfl
theorem rukuChap43 : chapterAll rukuAgrees 43 89 = true := by rfl
theorem rukuChap44 : chapterAll rukuAgrees 44 59 = true := by rfl
theorem rukuChap45 : chapterAll rukuAgrees 45 37 = true := by rfl
theorem rukuChap46 : chapterAll rukuAgrees 46 35 = true := by rfl
theorem rukuChap47 : chapterAll rukuAgrees 47 38 = true := by rfl
theorem rukuChap48 : chapterAll rukuAgrees 48 29 = true := by rfl
theorem rukuChap49 : chapterAll rukuAgrees 49 18 = true := by rfl
theorem rukuChap50 : chapterAll rukuAgrees 50 45 = true := by rfl
theorem rukuChap51 : chapterAll rukuAgrees 51 60 = true := by rfl
theorem rukuChap52 : chapterAll rukuAgrees 52 49 = true := by rfl
theorem rukuChap53 : chapterAll rukuAgrees 53 62 = true := by rfl
theorem rukuChap54 : chapterAll rukuAgrees 54 55 = true := by rfl
theorem rukuChap55 : chapterAll rukuAgrees 55 78 = true := by rfl
theorem rukuChap56 : chapterAll rukuAgrees 56 96 = true := by rfl
theorem rukuChap57 : chapterAll rukuAgrees 57 29 = true := by rfl
theorem rukuChap58 : chapterAll rukuAgrees 58 22 = true := by rfl
theorem rukuChap59 : chapterAll rukuAgrees 59 24 = true := by rfl
theorem rukuChap60 : chapterAll rukuAgrees 60 13 = true := by rfl
theorem rukuChap61 : chapterAll rukuAgrees 61 14 = true := by rfl
theorem rukuChap62 : chapterAll rukuAgrees 62 11 = true := by rfl
theorem rukuChap63 : chapterAll rukuAgrees 63 11 = true := by rfl
theorem rukuChap64 : chapterAll rukuAgrees 64 18 = true := by rfl
theorem rukuChap65 : chapterAll rukuAgrees 65 12 = true := by rfl
theorem rukuChap66 : chapterAll rukuAgrees 66 12 = true := by rfl
theorem rukuChap67 : chapterAll rukuAgrees 67 30 = true := by rfl
theorem rukuChap68 : chapterAll rukuAgrees 68 52 = true := by rfl
theorem rukuChap69 : chapterAll rukuAgrees 69 52 = true := by rfl
theorem rukuChap70 : chapterAll rukuAgrees 70 44 = true := by rfl
theorem rukuChap71 : chapterAll rukuAgrees 71 28 = true := by rfl
theorem rukuChap72 : chapterAll rukuAgrees 72 28 = true := by rfl
theorem rukuChap73 : chapterAll rukuAgrees 73 20 = true := by rfl
theorem rukuChap74 : chapterAll rukuAgrees 74 56 = true := by rfl
theorem rukuChap75 : chapterAll rukuAgrees 75 40 = true := by rfl
theorem rukuChap76 : chapterAll rukuAgrees 76 31 = true := by rfl
theorem rukuChap77 : chapterAll rukuAgrees 77 50 = true := by rfl
theorem rukuChap78 : chapterAll rukuAgrees 78 40 = true := by rfl
theorem rukuChap79 : chapterAll rukuAgrees 79 46 = true := by rfl
theorem rukuChap80 : chapterAll rukuAgrees 80 42 = true := by rfl
theorem rukuChap81 : chapterAll rukuAgrees 81 29 = true := by rfl
theorem rukuChap82 : chapterAll rukuAgrees 82 19 = true := by rfl
theorem rukuChap83 : chapterAll rukuAgrees 83 36 = true := by rfl
theorem rukuChap84 : chapterAll rukuAgrees 84 25 = true := by rfl
theorem rukuChap85 : chapterAll rukuAgrees 85 22 = true := by rfl
theorem rukuChap86 : chapterAll rukuAgrees 86 17 = true := by rfl
theorem rukuChap87 : chapterAll rukuAgrees 87 19 = true := by rfl
theorem rukuChap88 : chapterAll rukuAgrees 88 26 = true := by rfl
theorem rukuChap89 : chapterAll rukuAgrees 89 30 = true := by rfl
theorem rukuChap90 : chapterAll rukuAgrees 90 20 = true := by rfl
theorem rukuChap91 : chapterAll rukuAgrees 91 15 = true := by rfl
theorem rukuChap92 : chapterAll rukuAgrees 92 21 = true := by rfl
theorem rukuChap93 : chapterAll rukuAgrees 93 11 = true := by rfl
theorem rukuChap94 : chapterAll rukuAgrees 94 8 = true := by rfl
theorem rukuChap95 : chapterAll rukuAgrees 95 8 = true := by rfl
theorem rukuChap96 : chapterAll rukuAgrees 96 19 = true := by rfl
theorem rukuChap97 : chapterAll rukuAgrees 97 5 = true := by rfl
theorem rukuChap98 : chapterAll rukuAgrees 98 8 = true := by rfl
theorem rukuChap99 : chapterAll rukuAgrees 99 8 = true := by rfl
theorem rukuChap100 : chapterAll rukuAgrees 100 11 = true := by rfl
theorem rukuChap101 : chapterAll rukuAgrees 101 11 = true := by rfl
theorem rukuChap102 : chapterAll rukuAgrees 102 8 = true := by rfl
theorem rukuChap103 : chapterAll rukuAgrees 103 3 = true := by rfl
theorem rukuChap104 : chapterAll rukuAgrees 104 9 = true := by rfl
theorem rukuChap105 : chapterAll rukuAgrees 105 5 = true := by rfl
theorem rukuChap106 : chapterAll rukuAgrees 106 4 = true := by rfl
theorem rukuChap107 : chapterAll rukuAgrees 107 7 = true := by rfl
theorem rukuChap108 : chapterAll rukuAgrees 108 3 = true := by rfl
theorem rukuChap109 : chapterAll rukuAgrees 109 6 = true := by rfl
theorem rukuChap110 : chapterAll rukuAgrees 110 3 = true := by rfl
theorem rukuChap111 : chapterAll rukuAgrees 111 5 = true := by rfl
theorem rukuChap112 : chapterAll rukuAgrees 112 4 = true := by rfl
theorem rukuChap113 : chapterAll rukuAgrees 113 5 = true := by rfl
theorem rukuChap114 : chapterAll rukuAgrees 114 6 = true := by rfl

theorem juzAgrees_valid {c v : Nat} (hv : validPair c v = true) :
    juzAgrees c v = true := by
  obtain ⟨h1, h2, h3, h4⟩ := validPair_bounds hv
  interval_cases c
  · exact chapterAll_true juzChap1 v h3 h4
  · exact chapterAll_true juzChap2 v h3 h4
  · exact chapterAll_true juzChap3 v h3 h4
  · exact chapterAll_true juzChap4 v h3 h4
  · exact chapterAll_true juzChap5 v h3 h4
  · exact chapterAll_true juzChap6 v h3 h4
  · exact chapterAll_true juzChap7 v h3 h4
  · exact chapterAll_true juzChap8 v h3 h4
  · exact chapterAll_true juzChap9 v h3 h4
  · exact chapterAll_true juzChap10 v h3 h4
  · exact chapterAll_true juzChap11 v h3 h4
  · exact chapterAll_true juzChap12 v h3 h4
  · exact chapterAll_true juzChap13 v h3 h4
  · exact chapterAll_true juzChap14 v h3 h4
  · exact chapterAll_true juzChap15 v h3 h4
  · exact chapterAll_true juzChap16 v h3 h4
  · exact chapterAll_true juzChap17 v h3 h4
  · exact chapterAll_true juzChap18 v h3 h4
  · exact chapterAll_true juzChap19 v h3 h4
  · exact chapterAll_true juzChap20 v h3 h4
  · exact chapterAll_true juzChap21 v h3 h4
  · exact chapterAll_true juzChap22 v h3 h4
  · exact chapterAll_true juzChap23 v h3 h4
  · exact chapterAll_true juzChap24 v h3 h4
  · exact chapterAll_true juzChap25 v h3 h4
  · exact chapterAll_true juzChap26 v h3 h4
  · exact chapterAll_true juzChap27 v h3 h4
  · exact chapterAll_true juzChap28 v h3 h4
  · exact chapterAll_true juzChap29 v h3 h4
  · exact chapterAll_true juzChap30 v h3 h4
  · exact chapterAll_true juzChap31 v h3 h4
  · exact chapterAll_true juzChap32 v h3 h4
  · exact chapterAll_true juzChap33 v h3 h4
  · exact chapterAll_true juzChap34 v h3 h4
  · exact chapterAll_true juzChap35 v h3 h4
  · exact chapterAll_true juzChap36 v h3 h4
  · exact chapterAll_true juzChap37 v h3 h4
  · exact chapterAll_true juzChap38 v h3 h4
  · exact chapterAll_true juzChap39 v h3 h4
  · exact chapterAll_true juzChap40 v h3 h4
  · exact chapterAll_true juzChap41 v h3 h4
  · exact chapterAll_true juzChap42 v h3 h4
  · exact chapterAll_true juzChap43 v h3 h4
  · exact chapterAll_true juzChap44 v h3 h4
  · exact chapterAll_true juzChap45 v h3 h4
  · exact chapterAll_true juzChap46 v h3 h4
  · exact chapterAll_true juzChap47 v h3 h4
  · exact chapterAll_true juzChap48 v h3 h4
  · exact chapterAll_true juzChap49 v h3 h4
  · exact chapterAll_true juzChap50 v h3 h4
  · exact chapterAll_true juzChap51 v h3 h4
  · exact chapterAll_true juzChap52 v h3 h4
  · exact chapterAll_true juzChap53 v h3 h4
  · exact chapterAll_true juzChap54 v h3 h4
  · exact chapterAll_true juzChap55 v h3 h4
  · exact chapterAll_true juzChap56 v h3 h4
  · exact chapterAll_true juzChap57 v h3 h4
  · exact chapterAll_true juzChap58 v h3 h4
  · exact chapterAll_true juzChap59 v h3 h4
  · exact chapterAll_true juzChap60 v h3 h4
  · exact chapterAll_true juzChap61 v h3 h4
  · exact chapterAll_true juzChap62 v h3 h4
  · exact chapterAll_true juzChap63 v h3 h4
  · exact chapterAll_true juzChap64 v h3 h4
  · exact chapterAll_true juzChap65 v h3 h4
  · exact chapterAll_true juzChap66 v h3 h4
  · exact chapterAll_true juzChap67 v h3 h4
  · exact chapterAll_true juzChap68 v h3 h4
  · exact chapterAll_true juzChap69 v h3 h4
  · exact chapterAll_true juzChap70 v h3 h4
  · exact chapterAll_true juzChap71 v h3 h4
  · exact chapterAll_true juzChap72 v h3 h4
  · exact chapterAll_true juzChap73 v h3 h4
  · exact chapterAll_true juzChap74 v h3 h4
  · exact chapterAll_true juzChap75 v h3 h4
  · exact chapterAll_true juzChap76 v h3 h4
  · exact chapterAll_true juzChap77 v h3 h4
  · exact chapterAll_true juzChap78 v h3 h4
  · exact chapterAll_true juzChap79 v h3 h4
  · exact chapterAll_true juzChap80 v h3 h4
  · exact chapterAll_true juzChap81 v h3 h4
  · exact chapterAll_true juzChap82 v h3 h4
  · exact chapterAll_true juzChap83 v h3 h4
  · exact chapterAll_true juzChap84 v h3 h4
  · exact chapterAll_true juzChap85 v h3 h4
  · exact chapterAll_true juzChap86 v h3 h4
  · exact chapterAll_true juzChap87 v h3 h4
  · exact chapterAll_true juzChap88 v h3 h4
  · exact chapterAll_true juzChap89 v h3 h4
  · exact chapterAll_true juzChap90 v h3 h4
  · exact chapterAll_true juzChap91 v h3 h4
  · exact chapterAll_true juzChap92 v h3 h4
  · exact chapterAll_true juzChap93 v h3 h4
  · exact chapterAll_true juzChap94 v h3 h4
  · exact chapterAll_true juzChap95 v h3 h4
  · exact chapterAll_true juzChap96 v h3 h4
  · exact chapterAll_true juzChap97 v h3 h4
  · exact chapterAll_true juzChap98 v h3 h4
  · exact chapterAll_true juzChap99 v h3 h4
  · exact chapterAll_true juzChap100 v h3 h4
  · exact chapterAll_true juzChap101 v h3 h4
  · exact chapterAll_true juzChap102 v h3 h4
  · exact chapterAll_true juzChap103 v h3 h4
  · exact chapterAll_true juzChap104 v h3 h4
  · exact chapterAll_true juzChap105 v h3 h4
  · exact chapterAll_true juzChap106 v h3 h4
  · exact chapterAll_true juzChap107 v h3 h4
  · exact chapterAll_true juzChap108 v h3 h4
  · exact chapterAll_true juzChap109 v h3 h4
  · exact chapterAll_true juzChap110 v h3 h4
  · exact chapterAll_true juzChap111 v h3 h4
  · exact chapterAll_true juzChap112 v h3 h4
  · exact chapterAll_true juzChap113 v h3 h4
  · exact chapterAll_true juzChap114 v h3 h4

theorem rukuAgrees_valid {c v : Nat} (hv : validPair c v = true) :
    rukuAgrees c v = true := by
  obtain ⟨h1, h2, h3, h4⟩ := validPair_bounds hv
  interval_cases c
  · exact chapterAll_true rukuChap1 v h3 h4
  · exact chapterAll_true rukuChap2 v h3 h4
  · exact chapterAll_true rukuChap3 v h3 h4
  · exact chapterAll_true rukuChap4 v h3 h4
  · exact chapterAll_true rukuChap5 v h3 h4
  · exact chapterAll_true rukuChap6 v h3 h4
  · exact chapterAll_true rukuChap7 v h3 h4
  · exact chapterAll_true rukuChap8 v h3 h4
  · exact chapterAll_true rukuChap9 v h3 h4
  · exact chapterAll_true rukuChap10 v h3 h4
  · exact chapterAll_true rukuChap11 v h3 h4
  · exact chapterAll_true rukuChap12 v h3 h4
  · exact chapterAll_true rukuChap13 v h3 h4
  · exact chapterAll_true rukuChap14 v h3 h4
  · exact chapterAll_true rukuChap15 v h3 h4
  · exact chapterAll_true rukuChap16 v h3 h4
  · exact chapterAll_true rukuChap17 v h3 h4
  · exact chapterAll_true rukuChap18 v h3 h4
  · exact chapterAll_true rukuChap19 v h3 h4
  · exact chapterAll_true rukuChap20 v h3 h4
  · exact chapterAll_true rukuChap21 v h3 h4
  · exact chapterAll_true rukuChap22 v h3 h4
  · exact chapterAll_true rukuChap23 v h3 h4
  · exact chapterAll_true rukuChap24 v h3 h4
  · exact chapterAll_true rukuChap25 v h3 h4
  · exact chapterAll_true rukuChap26 v h3 h4
  · exact chapterAll_true rukuChap27 v h3 h4
  · exact chapterAll_true rukuChap28 v h3 h4
  · exact chapterAll_true rukuChap29 v h3 h4
  · exact chapterAll_true rukuChap30 v h3 h4
  · exact chapterAll_true rukuChap31 v h3 h4
  · exact chapterAll_true rukuChap32 v h3 h4
  · exact chapterAll_true rukuChap33 v h3 h4
  · exact chapterAll_true rukuChap34 v h3 h4
  · exact chapterAll_true rukuChap35 v h3 h4
  · exact chapterAll_true rukuChap36 v h3 h4
  · exact chapterAll_true rukuChap37 v h3 h4
  · exact chapterAll_true rukuChap38 v h3 h4
  · exact chapterAll_true rukuChap39 v h3 h4
  · exact chapterAll_true rukuChap40 v h3 h4
  · exact chapterAll_true rukuChap41 v h3 h4
  · exact chapterAll_true rukuChap42 v h3 h4
  · exact chapterAll_true rukuChap43 v h3 h4
  · exact chapterAll_true rukuChap44 v h3 h4
  · exact chapterAll_true rukuChap45 v h3 h4
  · exact chapterAll_true rukuChap46 v h3 h4
  · exact chapterAll_true rukuChap47 v h3 h4
  · exact chapterAll_true rukuChap48 v h3 h4
  · exact chapterAll_true rukuChap49 v h3 h4
  · exact chapterAll_true rukuChap50 v h3 h4
  · exact chapterAll_true rukuChap51 v h3 h4
  · exact chapterAll_true rukuChap52 v h3 h4
  · exact chapterAll_true rukuChap53 v h3 h4
  · exact chapterAll_true rukuChap54 v h3 h4
  · exact chapterAll_true rukuChap55 v h3 h4
  · exact chapterAll_true rukuChap56 v h3 h4
  · exact chapterAll_true rukuChap57 v h3 h4
  · exact chapterAll_true rukuChap58 v h3 h4
  · exact chapterAll_true rukuChap59 v h3 h4
  · exact chapterAll_true rukuChap60 v h3 h4
  · exact chapterAll_true rukuChap61 v h3 h4
  · exact chapterAll_true rukuChap62 v h3 h4
  · exact chapterAll_true rukuChap63 v h3 h4
  · exact chapterAll_true rukuChap64 v h3 h4
  · exact chapterAll_true rukuChap65 v h3 h4
  · exact chapterAll_true rukuChap66 v h3 h4
  · exact chapterAll_true rukuChap67 v h3 h4
  · exact chapterAll_true rukuChap68 v h3 h4
  · exact chapterAll_true rukuChap69 v h3 h4
  · exact chapterAll_true rukuChap70 v h3 h4
  · exact chapterAll_true rukuChap71 v h3 h4
  · exact chapterAll_true rukuChap72 v h3 h4
  · exact chapterAll_true rukuChap73 v h3 h4
  · exact chapterAll_true rukuChap74 v h3 h4
  · exact chapterAll_true rukuChap75 v h3 h4
  · exact chapterAll_true rukuChap76 v h3 h4
  · exact chapterAll_true rukuChap77 v h3 h4
  · exact chapterAll_true rukuChap78 v h3 h4
  · exact chapterAll_true rukuChap79 v h3 h4
  · exact chapterAll_true rukuChap80 v h3 h4
  · exact chapterAll_true rukuChap81 v h3 h4
  · exact chapterAll_true rukuChap82 v h3 h4
  · exact chapterAll_true rukuChap83 v h3 h4
  · exact chapterAll_true rukuChap84 v h3 h4
  · exact chapterAll_true rukuChap85 v h3 h4
  · exact chapterAll_true rukuChap86 v h3 h4
  · exact chapterAll_true rukuChap87 v h3 h4
  · exact chapterAll_true rukuChap88 v h3 h4
  · exact chapterAll_true rukuChap89 v h3 h4
  · exact chapterAll_true rukuChap90 v h3 h4
  · exact chapterAll_true rukuChap91 v h3 h4
  · exact chapterAll_true rukuChap92 v h3 h4
  · exact chapterAll_true rukuChap93 v h3 h4
  · exact chapterAll_true rukuChap94 v h3 h4
  · exact chapterAll_true rukuChap95 v h3 h4
  · exact chapterAll_true rukuChap96 v h3 h4
  · exact chapterAll_true rukuChap97 v h3 h4
  · exact chapterAll_true rukuChap98 v h3 h4
  · exact chapterAll_true rukuChap99 v h3 h4
  · exact chapterAll_true rukuChap100 v h3 h4
  · exact chapterAll_true rukuChap101 v h3 h4
  · exact chapterAll_true rukuChap102 v h3 h4
  · exact chapterAll_true rukuChap103 v h3 h4
  · exact chapterAll_true rukuChap104 v h3 h4
  · exact chapterAll_true rukuChap105 v h3 h4
  · exact chapterAll_true rukuChap106 v h3 h4
  · exact chapterAll_true rukuChap107 v h3 h4
  · exact chapterAll_true rukuChap108 v h3 h4
  · exact chapterAll_true rukuChap109 v h3 h4
  · exact chapterAll_true rukuChap110 v h3 h4
  · exact chapterAll_true rukuChap111 v h3 h4
  · exact chapterAll_true rukuChap112 v h3 h4
  · exact chapterAll_true rukuChap113 v h3 h4
  · exact chapterAll_true rukuChap114 v h3 h4

/-- Claim C5: for every valid pair, calculate_ruku equals the
cutoff-table rule (explicit tables for chapters 1 and 2, generic
`(v - 1) / 10 + 1` elsewhere), with the claimed values at (1,7), (2,26)
and (3,11).  The cap branch (`return 40`) is dead on valid verses,
whose numbers never exceed the last cutoff 286. -/
theorem ruku_subsection_rule :
    (∀ c v, validPair c v = true → calculate_ruku c v = rukuSpec c v) ∧
    calculate_ruku 1 7 = 1 ∧ calculate_ruku 2 26 = 2 ∧ calculate_ruku 3 11 = 2 := by
  refine ⟨?_, rfl, rfl, rfl⟩
  intro c v hv
  exact Nat.eq_of_beq_eq_true (rukuAgrees_valid hv)

/-- Claim C5, witness: the generic rule at the concrete valid pair
(4, 100). -/
theorem ruku_subsection_rule_witness :
    calculate_ruku 4 100 = rukuSpec 4 100 :=
  ruku_subsection_rule.1 4 100 (by rfl)

/-- Claim C1: for every valid pair, the main converter's
get_juz_for_verse returns the first boundary interval containing the
verse in the global verse order (scanning the 30 boundaries in
ascending order), and the end boundary of part 1 behaves as claimed;
the legacy juz loop of db_manager.py, however, assigns part 2 to
(2, 253) — the first verse of part 3 — because its start-chapter test
is not guarded by the interval's end verse. -/
theorem juz_part_classifier :
    (∀ c v, validPair c v = true → get_juz_for_verse c v = partFirst c v) ∧
    get_juz_for_verse 2 141 = 1 ∧ get_juz_for_verse 2 142 = 2 ∧
    dbJuz 2 253 = 2 ∧ partFirst 2 253 = 3 ∧ get_juz_for_verse 2 253 = 3 := by
  refine ⟨?_, rfl, rfl, rfl, rfl, rfl⟩
  intro c v hv
  exact Nat.eq_of_beq_eq_true (juzAgrees_valid hv)

/-- Claim C1, witness: agreement at the concrete valid pair (5, 10). -/
theorem juz_part_classifier_witness :
    get_juz_for_verse 5 10 = partFirst 5 10 :=
  juz_part_classifier.1 5 10 (by rfl)
